import Mathlib

/-!
Verification development for the rule-based HTML accessibility scanner
(repository `vanessamarely/vscode-checksemantic`).  The JavaScript sources
are embedded shallowly.  Regular expressions become an explicit backtracking
matcher over a pattern syntax tree that mirrors the literals of the source;
the rule catalog becomes a list of optional rule records (optional, because
the source array literal contains an elided element, a hole, between the
rules R48 and R49); predicate functions become Lean functions returning
`Except JsError Bool`, where an `error` models a thrown exception; and the
scan entry points become functions from the document text to `Except`
results.  Real-number arithmetic models the floating-point color pipeline,
with `Option` tracking the JavaScript `NaN`.
-/

/-- A thrown JavaScript exception, as the scanner can observe one. -/
inductive JsError where
  | typeError (msg : String)
  deriving DecidableEq, Repr

/-- JavaScript whitespace, the class `\s` (the common members; the inputs of
this development are ASCII). -/
def isJsWs (c : Char) : Bool :=
  c = ' ' || c = '\t' || c = '\n' || c = '\r' ||
  c = Char.ofNat 11 || c = Char.ofNat 12 || c = Char.ofNat 0xa0

/-- The class `\w` of JavaScript: ASCII letters, digits and underscore. -/
def isJsWord (c : Char) : Bool := c.isAlphanum || c = '_'

/-- One item of a regular-expression character class. -/
inductive CCItem where
  | ch (c : Char)
  | range (lo hi : Char)
  | ws
  | nws
  | word
  | digit
  deriving DecidableEq, Repr

/-- A single-character matcher: a (possibly negated) class, or the dot. -/
inductive CharM where
  | cls (neg : Bool) (items : List CCItem)
  | dot
  deriving DecidableEq, Repr

/-- Patterns of the JavaScript regular expressions the sources use:
sequencing, ordered alternation, counted repetition (greedy or lazy),
capturing groups, negative lookahead, backreferences, the word boundary
and the two anchors. -/
inductive Pat where
  | eps
  | ch (m : CharM)
  | seq (p q : Pat)
  | alt (p q : Pat)
  | rep (p : Pat) (lo : Nat) (hi : Option Nat) (lz : Bool)
  | grp (i : Nat) (p : Pat)
  | nla (p : Pat)
  | bref (i : Nat)
  | wordB
  | bos
  | eos
  deriving DecidableEq, Repr

/-- Case comparison of one character against a pattern character, honouring
the `i` flag (ASCII folding, as the inputs are ASCII). -/
def ciEq (ci : Bool) (a b : Char) : Bool :=
  a = b || (ci && a.toLower = b.toLower)

/-- Whether a class item matches a character. -/
def ccItemHit (ci : Bool) (it : CCItem) (c : Char) : Bool :=
  match it with
  | .ch d => ciEq ci c d
  | .range lo hi =>
      (lo ≤ c && c ≤ hi) ||
      (ci && ((lo ≤ c.toLower && c.toLower ≤ hi) || (lo ≤ c.toUpper && c.toUpper ≤ hi)))
  | .ws => isJsWs c
  | .nws => !isJsWs c
  | .word => isJsWord c
  | .digit => c.isDigit

/-- Whether a single-character matcher accepts a character (`dot` skips line
terminators unless the `s` flag is set). -/
def charMHit (ci dotAll : Bool) (m : CharM) (c : Char) : Bool :=
  match m with
  | .cls neg items => neg != items.any (fun it => ccItemHit ci it c)
  | .dot => dotAll || (c ≠ '\n' && c ≠ '\r')

/-- The matcher configuration: the subject characters, their number, and the
`i` / `s` flags of the regular expression. -/
structure RCfg where
  chars : List Char
  len : Nat
  ci : Bool
  dotAll : Bool
  deriving DecidableEq, Repr

/-- The subject character at a position (a default outside the subject; the
matcher always guards positions by `len`). -/
def charAt (cfg : RCfg) (pos : Nat) : Char := cfg.chars.getD pos (Char.ofNat 0)

/-- Capture store: group index with the half-open span it last captured. -/
abbrev Caps := List (Nat × Nat × Nat)

/-- Record a capture (the newest entry wins on lookup). -/
def capSet (caps : Caps) (i a b : Nat) : Caps := (i, a, b) :: caps

/-- The span a group last captured, if any. -/
def capGet (caps : Caps) (i : Nat) : Option (Nat × Nat) :=
  match caps.find? (fun e => e.1 == i) with
  | some e => some e.2
  | none => none

/-- Whether the character at a position exists and is a word character. -/
def isWordAt (cfg : RCfg) (pos : Nat) : Bool :=
  Nat.blt pos cfg.len && isJsWord (charAt cfg pos)

/-- The `\b` test at a position. -/
def atWordB (cfg : RCfg) (pos : Nat) : Bool :=
  (if pos = 0 then false else isWordAt cfg (pos - 1)) != isWordAt cfg pos

/-- Match a literal segment (a backreference replay) at a position, giving
the position after it. -/
def segMatches (cfg : RCfg) (pos : Nat) : List Char → Option Nat
  | [] => some pos
  | c :: rest =>
      if Nat.blt pos cfg.len && ciEq cfg.ci (charAt cfg pos) c then
        segMatches cfg (pos + 1) rest
      else none

/-- The backtracking matcher, in continuation style with explicit fuel: every
recursive call decreases the fuel, so the fuel bounds the depth of one search
path.  Repetition below its minimum runs its body unconditionally; at the
minimum, a further greedy (or lazy) iteration is taken only when the body
consumed at least one character, the standard guard against empty-body loops
(the quantified bodies of the embedded patterns all consume input).  A
negative lookahead runs its body and discards its captures. -/
def matchPat (cfg : RCfg) : Nat → Pat → Nat → Caps →
    (Nat → Caps → Option (Nat × Caps)) → Option (Nat × Caps)
  | 0, _, _, _, _ => none
  | fuel + 1, pat, pos, caps, k =>
    match pat with
    | .eps => k pos caps
    | .ch m =>
        if Nat.blt pos cfg.len && charMHit cfg.ci cfg.dotAll m (charAt cfg pos) then
          k (pos + 1) caps
        else none
    | .seq p q =>
        matchPat cfg fuel p pos caps (fun pos2 caps2 => matchPat cfg fuel q pos2 caps2 k)
    | .alt p q =>
        match matchPat cfg fuel p pos caps k with
        | some r => some r
        | none => matchPat cfg fuel q pos caps k
    | .rep p lo hi lz =>
        match lo with
        | m + 1 =>
            matchPat cfg fuel p pos caps (fun pos2 caps2 =>
              matchPat cfg fuel (.rep p m (hi.map (· - 1)) lz) pos2 caps2 k)
        | 0 =>
            match hi with
            | some 0 => k pos caps
            | _ =>
                if lz then
                  match k pos caps with
                  | some r => some r
                  | none =>
                      matchPat cfg fuel p pos caps (fun pos2 caps2 =>
                        if Nat.blt pos pos2 then
                          matchPat cfg fuel (.rep p 0 (hi.map (· - 1)) lz) pos2 caps2 k
                        else none)
                else
                  match matchPat cfg fuel p pos caps (fun pos2 caps2 =>
                      if Nat.blt pos pos2 then
                        matchPat cfg fuel (.rep p 0 (hi.map (· - 1)) lz) pos2 caps2 k
                      else none) with
                  | some r => some r
                  | none => k pos caps
    | .grp i p =>
        matchPat cfg fuel p pos caps (fun pos2 caps2 => k pos2 (capSet caps2 i pos pos2))
    | .nla p =>
        match matchPat cfg fuel p pos caps (fun pos2 caps2 => some (pos2, caps2)) with
        | some _ => none
        | none => k pos caps
    | .bref i =>
        match capGet caps i with
        | none => k pos caps
        | some (a, b) =>
            match segMatches cfg pos ((cfg.chars.drop a).take (b - a)) with
            | some pos2 => k pos2 caps
            | none => none
    | .wordB => if atWordB cfg pos then k pos caps else none
    | .bos => if pos = 0 then k pos caps else none
    | .eos => if pos = cfg.len then k pos caps else none

/-- A compiled regular expression: its pattern and its `i` / `s` flags (all
the expressions of the sources that the scan loop runs carry the `g` flag;
that flag lives in the `exec` loop below, not here). -/
structure JsRegex where
  pat : Pat
  ci : Bool := false
  dotAll : Bool := false
  deriving DecidableEq, Repr

/-- The matcher configuration of a regular expression over a subject. -/
def regexCfg (re : JsRegex) (s : String) : RCfg :=
  { chars := s.data, len := s.data.length, ci := re.ci, dotAll := re.dotAll }

/-- Attempt a match anchored at one position. -/
def matchAt (re : JsRegex) (cfg : RCfg) (pos : Nat) : Option (Nat × Caps) :=
  matchPat cfg (8 * cfg.len + 200) re.pat pos [] (fun e caps => some (e, caps))

/-- `exec` searches left to right from `lastIndex`: the first position at or
after `pos` where the pattern matches, with the match end and captures. -/
def findFrom (re : JsRegex) (cfg : RCfg) : Nat → Nat → Option (Nat × Nat × Caps)
  | 0, _ => none
  | fuel + 1, pos =>
      if Nat.blt cfg.len pos then none
      else
        match matchAt re cfg pos with
        | some (e, caps) => some (pos, e, caps)
        | none => findFrom re cfg fuel (pos + 1)

/-- One match as the scan code sees it: `match.index`, `match[0]`, and the
capture spans. -/
structure RMatch where
  index : Nat
  str : String
  caps : Caps
  deriving DecidableEq, Repr

/-- The substring of the subject over a half-open span. -/
def sliceStr (cfg : RCfg) (a b : Nat) : String :=
  String.mk ((cfg.chars.drop a).take (b - a))

/-- The `while (m = re.exec(text))` loop of the sources: successive matches
from a starting `lastIndex`; the loop ends when `exec` returns `null`, which
also resets `lastIndex` to `0` (the second component).  A zero-width match
would advance by one position (no pattern of the sources matches the empty
string). -/
def execLoop (re : JsRegex) (cfg : RCfg) : Nat → Nat → List RMatch × Nat
  | 0, _ => ([], 0)
  | fuel + 1, start =>
      if Nat.blt cfg.len start then ([], 0)
      else
        match findFrom re cfg (cfg.len + 1 - start) start with
        | none => ([], 0)
        | some (idx, e, caps) =>
            let nxt := if e ≤ idx then idx + 1 else e
            let rest := execLoop re cfg fuel nxt
            ({ index := idx, str := sliceStr cfg idx e, caps := caps } :: rest.1, rest.2)

/-- All matches of a global regular expression over a subject, starting from
a given `lastIndex`, together with the final `lastIndex`. -/
def execAllFrom (re : JsRegex) (s : String) (lastIndex : Nat) : List RMatch × Nat :=
  let cfg := regexCfg re s
  execLoop re cfg (cfg.len + 2) lastIndex

/-- All matches from a fresh regular-expression object (`lastIndex` zero). -/
def execAll (re : JsRegex) (s : String) : List RMatch := (execAllFrom re s 0).1

/-- `re.test(s)` and the truthiness of `s.match(re)` for a freshly created
regular expression: whether any match exists. -/
def regexTest (re : JsRegex) (s : String) : Bool :=
  (findFrom re (regexCfg re s) ((regexCfg re s).len + 1) 0).isSome

/-- The number of matches `s.match(re)` yields for a global expression. -/
def regexCount (re : JsRegex) (s : String) : Nat := (execAll re s).length

/-- Replace every match by a fixed replacement (`String.prototype.replace`
with a global expression and a plain replacement string). -/
def spliceAll (cs : List Char) (repl : List Char) : Nat → List RMatch → List Char
  | pos, [] => cs.drop pos
  | pos, m :: rest =>
      (cs.drop pos).take (m.index - pos) ++ repl ++
        spliceAll cs repl (m.index + m.str.length) rest

/-- `s.replace(re, repl)` for a global `re`. -/
def regexReplaceAll (re : JsRegex) (s : String) (repl : String) : String :=
  String.mk (spliceAll s.data repl.data 0 (execAll re s))

/-- Pattern of one literal character. -/
def pchr (c : Char) : Pat := .ch (.cls false [.ch c])

/-- Pattern of a literal string. -/
def plit (s : String) : Pat := (s.data.map pchr).foldr .seq .eps

/-- Sequence of patterns. -/
def pseq (l : List Pat) : Pat := l.foldr .seq .eps

/-- Ordered alternation of patterns (leftmost preferred). -/
def palt : List Pat → Pat
  | [] => .eps
  | p :: rest => rest.foldl .alt p

/-- Greedy `*`. -/
def pstar (p : Pat) : Pat := .rep p 0 none false

/-- Lazy `*?`. -/
def pstarL (p : Pat) : Pat := .rep p 0 none true

/-- Greedy `+`. -/
def pplus (p : Pat) : Pat := .rep p 1 none false

/-- Greedy `?`. -/
def popt (p : Pat) : Pat := .rep p 0 (some 1) false

/-- Positive character class from the listed characters. -/
def pcls (s : String) : Pat := .ch (.cls false (s.data.map .ch))

/-- Negated character class from the listed characters. -/
def pncls (s : String) : Pat := .ch (.cls true (s.data.map .ch))

/-- The class `\s`. -/
def pws : Pat := .ch (.cls false [.ws])

/-- The class `\d`. -/
def pdig : Pat := .ch (.cls false [.digit])

/-- The class `\w`. -/
def pwrd : Pat := .ch (.cls false [.word])

/-- The dot. -/
def pdot : Pat := .ch .dot

/-- The class `[\s\S]`: any character at all. -/
def panyAll : Pat := .ch (.cls false [.ws, .nws])

/-- The class `["']` of one quote character. -/
def pquote : Pat := .ch (.cls false [.ch '"', .ch '\''])

/-- The class `[0-9a-fA-F]` of one hexadecimal digit. -/
def phex : Pat := .ch (.cls false [.range '0' '9', .range 'a' 'f', .range 'A' 'F'])

/-- The ubiquitous `[^>]*` of the catalog patterns. -/
def pattrs : Pat := pstar (pncls ">")

/-- First position where `sub` occurs in the remaining characters, counted
from `p`. -/
def firstInfixPos (sub : List Char) : List Char → Nat → Option Nat
  | cs, p =>
      if sub.isPrefixOf cs then some p
      else
        match cs with
        | [] => none
        | _ :: t => firstInfixPos sub t (p + 1)

/-- `s.includes(sub)`. -/
def jsIncludes (s sub : String) : Bool := (firstInfixPos sub.data s.data 0).isSome

/-- `s.toLowerCase()` (ASCII folding; the documents of this development are
ASCII). -/
def jsToLower (s : String) : String := String.mk (s.data.map Char.toLower)

/-- `s.trim()`. -/
def jsTrim (s : String) : String :=
  String.mk (((s.data.dropWhile isJsWs).reverse.dropWhile isJsWs).reverse)

/-- `s.startsWith(p)`. -/
def jsStartsWith (s p : String) : Bool := p.data.isPrefixOf s.data

/-- `s.endsWith(p)`. -/
def jsEndsWith (s p : String) : Bool := p.data.isSuffixOf s.data

/-- Last position where `sub` occurs, threading the best position found. -/
def lastInfixPos (sub : List Char) : List Char → Nat → Option Nat → Option Nat
  | cs, p, best =>
      let best2 := if sub.isPrefixOf cs then some p else best
      match cs with
      | [] => best2
      | _ :: t => lastInfixPos sub t (p + 1) best2

/-- `s.indexOf(sub)`: the first occurrence, `-1` when there is none. -/
def jsIndexOf (s sub : String) : Int :=
  match firstInfixPos sub.data s.data 0 with
  | some p => Int.ofNat p
  | none => -1

/-- `s.lastIndexOf(sub)`. -/
def jsLastIndexOf (s sub : String) : Int :=
  match lastInfixPos sub.data s.data 0 none with
  | some p => Int.ofNat p
  | none => -1

/-- `s.substring(a, b)`: clamp both arguments into the string and swap them
when the start exceeds the end. -/
def jsSubstring (s : String) (a b : Int) : String :=
  let n : Int := Int.ofNat s.data.length
  let x := (max 0 (min a n)).toNat
  let y := (max 0 (min b n)).toNat
  String.mk ((s.data.drop (min x y)).take (max x y - min x y))

/-- `document.positionAt(offset)` of the editor document: the zero-based line
(the number of newlines before the clamped offset) and the zero-based
character within that line. -/
def positionAt (s : String) (offset : Nat) : Nat × Nat :=
  let pre := s.data.take (min offset s.data.length)
  (pre.count '\n', (pre.reverse.takeWhile (fun c => c ≠ '\n')).length)

/-- A catalog rule of the final `rules.js` (the part_003 file): identifier,
target-tag text, conformance level, pattern, message, predicate (which can
throw) and recommendation.  A few rules also carry an autofix transform; the
scan entry destructures only `regex`, `message`, `recommendation` and
`validate`, so the transforms stay outside this embedding. -/
structure Rule where
  id : String
  tag : String
  level : String
  regex : JsRegex
  message : String
  validate : String → String → Except JsError Bool
  recommendation : String

/-- One issue object as the final extension entry pushes it: message (with
the looked-up rule identifier appended), recommendation and the span as
line/character pairs. -/
structure JsIssue where
  message : String
  recommendation : String
  startLine : Nat
  startChar : Nat
  endLine : Nat
  endChar : Nat
  deriving DecidableEq, Repr

/-- `rules.find((r) => r.message === message)`: `Array.prototype.find` visits
every index of a sparse array, holes read as `undefined`, so reaching the
hole dereferences `undefined` and throws. -/
def findRuleByMessage : List (Option Rule) → String → Except JsError (Option Rule)
  | [], _ => .ok none
  | none :: _, _ =>
      .error (.typeError "Cannot read properties of undefined (reading 'message')")
  | some r :: rest, msg =>
      if r.message = msg then .ok (some r) else findRuleByMessage rest msg

/-- `found?.id || "R?"` (an empty identifier string would also be falsy). -/
def issueRuleId (found : Option Rule) : String :=
  match found with
  | some r => if r.id = "" then "R?" else r.id
  | none => "R?"

/-- The body of the rule loop for one rule's matches, in occurrence order:
run the predicate, and on `true` build the issue, looking the rule identifier
up by message over the whole catalog (hole included). -/
def processMatches (allRules : List (Option Rule)) (r : Rule) (doc : String) :
    List RMatch → Except JsError (List JsIssue)
  | [] => .ok []
  | m :: rest =>
      match r.validate m.str doc with
      | .error e => .error e
      | .ok b =>
          if b then
            match findRuleByMessage allRules r.message with
            | .error e => .error e
            | .ok found =>
                let startP := positionAt doc m.index
                let endP := positionAt doc (m.index + m.str.length)
                match processMatches allRules r doc rest with
                | .error e => .error e
                | .ok more =>
                    .ok ({ message := r.message ++ " (" ++ issueRuleId found ++ ")",
                           recommendation := r.recommendation,
                           startLine := startP.1, startChar := startP.2,
                           endLine := endP.1, endChar := endP.2 } :: more)
          else processMatches allRules r doc rest

/-- `rules.forEach(...)` of the final extension entry: every defined slot is
evaluated in catalog order, a hole is skipped without being evaluated; each
rule's `exec` loop starts from that slot's `lastIndex` and leaves the final
`lastIndex` the loop produced (zero after a completed loop). -/
def runRulesGo (allRules : List (Option Rule)) (doc : String) :
    List (Option Rule) → List Nat → Except JsError (List JsIssue × List Nat)
  | [], _ => .ok ([], [])
  | slot :: rest, σ =>
      match slot with
      | none =>
          match runRulesGo allRules doc rest σ.tail with
          | .error e => .error e
          | .ok r2 => .ok (r2.1, σ.headD 0 :: r2.2)
      | some r =>
          let ex := execAllFrom r.regex doc (σ.headD 0)
          match processMatches allRules r doc ex.1 with
          | .error e => .error e
          | .ok is1 =>
              match runRulesGo allRules doc rest σ.tail with
              | .error e => .error e
              | .ok r2 => .ok (is1 ++ r2.1, ex.2 :: r2.2)

/-- The catalog value `checkSemanticIssues` can receive: the loaded array
(with its hole), a missing export, or a non-array object that still provides
`forEach` — the only shape that reaches the malformed-catalog report, because
that check runs after the loop. -/
inductive CatalogValue where
  | undef
  | array (rs : List (Option Rule))
  | forEachObj (rs : List (Option Rule))

/-- `checkSemanticIssues(documentText, document)` of the final extension
entry (part_002): the rule loop runs first; the catalog-validity check runs
only afterwards, and on a non-array catalog discards the collected issues,
reports the failure and returns the empty list.  The result carries the
issues, whether the failure report was shown, and the final `lastIndex` of
every catalog slot. -/
def checkSemanticIssuesVal (cat : CatalogValue) (σ : List Nat) (doc : String) :
    Except JsError (List JsIssue × Bool × List Nat) :=
  match cat with
  | .undef => .error (.typeError "Cannot read properties of undefined (reading 'forEach')")
  | .array rs =>
      match runRulesGo rs doc rs σ with
      | .error e => .error e
      | .ok (issues, fins) => .ok (issues, false, fins)
  | .forEachObj rs =>
      match runRulesGo rs doc rs σ with
      | .error e => .error e
      | .ok (r2) => .ok ([], true, r2.2)

/-- All `lastIndex` fields zero: the state of freshly loaded module-level
regular-expression literals. -/
def freshState (rs : List (Option Rule)) : List Nat := rs.map (fun _ => 0)

/-- The scan as the command handler calls it: the loaded catalog array from
module load (all `lastIndex` zero), issues only. -/
def checkSemanticIssues (rs : List (Option Rule)) (doc : String) :
    Except JsError (List JsIssue) :=
  match checkSemanticIssuesVal (.array rs) (freshState rs) doc with
  | .error e => .error e
  | .ok r => .ok r.1

/-- The pattern shape `/<tag[^>]*>/`, the most common catalog pattern. -/
def reTag (t : String) (ci : Bool) : JsRegex :=
  { pat := pseq [plit ("<" ++ t), pattrs, pchr '>'], ci := ci }

/-- The pattern shape `/<(t1|t2|...)[^>]*>/` with its capturing group. -/
def reAltTag (ts : List Pat) (ci : Bool) : JsRegex :=
  { pat := pseq [pchr '<', .grp 1 (palt ts), pattrs, pchr '>'], ci := ci }

/-- The fragment `h[1-6]`. -/
def ph16 : Pat := pseq [pchr 'h', .ch (.cls false [.range '1' '6'])]

/-- The validate-side test `/<picture[^>]*>[\s\S]*?<img[^>]*?>[\s\S]*?<\/picture>/gi`
of rule R1. -/
def rePicture : JsRegex :=
  { pat := pseq [plit "<picture", pattrs, pchr '>', pstarL panyAll, plit "<img",
                 pstarL (pncls ">"), pchr '>', pstarL panyAll, plit "</picture>"],
    ci := true }

/-- Catalog rule R1 (`img`, level A): pattern `/<img\b[^>]*?(\/?)>/gi`. -/
def R1 : Rule :=
  { id := "R1", tag := "img", level := "A",
    regex := { pat := pseq [plit "<img", .wordB, pstarL (pncls ">"),
                            .grp 1 (popt (pchr '/')), pchr '>'], ci := true },
    message := "Image without alt attribute",
    validate := fun tag doc =>
      if jsIncludes tag "<!--" || jsIncludes tag "-->" then .ok false
      else
        let isMissingAlt := !jsIncludes tag "alt="
        let isInsidePicture := regexTest rePicture doc
        .ok (isMissingAlt || (isInsidePicture && !jsIncludes tag "alt=")),
    recommendation := "Add an alt attribute to describe the image content or use alt=\"\" if decorative. Even inside <picture>, ensure <img> has alt." }

/-- Catalog rule R2 (`input[type="image"]`, level A). -/
def R2 : Rule :=
  { id := "R2", tag := "input[type=\"image\"]", level := "A",
    regex := { pat := pseq [plit "<input", pattrs, plit "type=", pquote,
                            plit "image", pquote, pattrs, pchr '>'] },
    message := "Image input missing alt attribute",
    validate := fun tag _ => .ok (!jsIncludes tag "alt="),
    recommendation := "Add an alt attribute that describes the function of the button." }

/-- Catalog rule R3 (`area`, level A). -/
def R3 : Rule :=
  { id := "R3", tag := "area", level := "A",
    regex := reTag "area" false,
    message := "Area element missing alt attribute",
    validate := fun tag _ => .ok (!jsIncludes tag "alt="),
    recommendation := "Provide a descriptive alt attribute for each <area> tag in image maps." }

/-- Catalog rule R4 (`object`, level A): the predicate looks at the whole
document for a `<p>`. -/
def R4 : Rule :=
  { id := "R4", tag := "object", level := "A",
    regex := reTag "object" false,
    message := "Object without text alternative",
    validate := fun _ doc => .ok (!jsIncludes doc "<p>"),
    recommendation := "Include a text description inside or near the <object> tag or use aria-label." }

/-- Catalog rule R5 (`svg`, level A): three negative lookaheads in the
pattern. -/
def R5 : Rule :=
  { id := "R5", tag := "svg", level := "A",
    regex := { pat := pseq [plit "<svg",
                            .nla (pseq [pattrs, plit "aria-label"]),
                            .nla (pseq [pattrs, plit "aria-hidden"]),
                            .nla (pseq [pattrs, plit "<title"]),
                            pattrs, pchr '>'] },
    message := "SVG missing aria-label or aria-hidden",
    validate := fun tag _ =>
      .ok (!jsIncludes tag "aria-label" && !jsIncludes tag "aria-hidden"),
    recommendation := "Add aria-label or <title> for informative SVGs, or aria-hidden='true' for decorative ones." }

/-- Catalog rule R6 (`applet`, level A). -/
def R6 : Rule :=
  { id := "R6", tag := "applet", level := "A",
    regex := reTag "applet" false,
    message := "Applet element requires alt text",
    validate := fun tag _ => .ok (!jsIncludes tag "alt="),
    recommendation := "Add alt attribute that describes the content or purpose of the applet." }

/-- The validate-side test `/>\s*[^<]+\s*</` of rule R7. -/
def reTextBetween : JsRegex :=
  { pat := pseq [pchr '>', pstar pws, pplus (pncls "<"), pstar pws, pchr '<'] }

/-- Catalog rule R7 (`button`, level A). -/
def R7 : Rule :=
  { id := "R7", tag := "button", level := "A",
    regex := { pat := pseq [plit "<button",
                            .nla (pseq [pattrs, plit "aria-label"]),
                            .nla (pseq [pattrs, pchr '>', pstar pws,
                                        pplus (pncls "<"), pstar pws, pchr '<']),
                            pattrs, pchr '>'] },
    message := "Button missing accessible name",
    validate := fun tag _ =>
      .ok (!jsIncludes tag "aria-label" && !regexTest reTextBetween tag),
    recommendation := "Include visible text or an aria-label to describe the button's purpose." }

/-- Catalog rule R8 (`a`, level A). -/
def R8 : Rule :=
  { id := "R8", tag := "a", level := "A",
    regex := { pat := pseq [plit "<a", pattrs, pchr '>',
                            .grp 1 (palt [pseq [pstar pws, plit "<i", pattrs, pchr '>'],
                                          pseq [pstar pws, plit "<span", pattrs, pchr '>']]),
                            pstar pws, plit "</a>"] },
    message := "Anchor with icon only and no accessible label",
    validate := fun tag _ =>
      .ok (jsIncludes tag "<i" && !jsIncludes tag "aria-label"),
    recommendation := "Use aria-label to describe the purpose of the link." }

/-- Catalog rule R9 (`figure`, level A): `gs` flags, so the dot crosses
newlines. -/
def R9 : Rule :=
  { id := "R9", tag := "figure", level := "A",
    regex := { pat := pseq [plit "<figure", pattrs, pchr '>',
                            .nla (pseq [pstarL pdot, plit "<figcaption>"]),
                            pstarL pdot, plit "</figure>"],
               dotAll := true },
    message := "Figure missing figcaption",
    validate := fun _ doc => .ok (!jsIncludes doc "<figcaption>"),
    recommendation := "Include a <figcaption> to describe the figure content." }

/-- Catalog rule R10 (`iframe`, level A). -/
def R10 : Rule :=
  { id := "R10", tag := "iframe", level := "A",
    regex := { pat := pseq [plit "<iframe",
                            .nla (pseq [pattrs, plit "title="]),
                            pattrs, pchr '>'] },
    message := "Iframe missing title attribute",
    validate := fun tag _ => .ok (!jsIncludes tag "title="),
    recommendation := "Add a title attribute that describes the iframe's purpose." }

/-- Catalog rule R11 (`embed`, level A). -/
def R11 : Rule :=
  { id := "R11", tag := "embed", level := "A",
    regex := { pat := pseq [plit "<embed",
                            .nla (pseq [pattrs, plit "aria-label"]),
                            .nla (pseq [pattrs, plit "title"]),
                            pattrs, pchr '>'] },
    message := "Embed missing fallback content",
    validate := fun _ doc => .ok (!jsIncludes doc "<p>"),
    recommendation := "Provide fallback content or use title/aria-label to describe the embedded content." }

/-- The validate-side test `/<canvas[^>]*>\s*<\/canvas>/` of rule R12. -/
def reCanvasEmpty : JsRegex :=
  { pat := pseq [plit "<canvas", pattrs, pchr '>', pstar pws, plit "</canvas>"] }

/-- Catalog rule R12 (`canvas`, level A). -/
def R12 : Rule :=
  { id := "R12", tag := "canvas", level := "A",
    regex := reTag "canvas" false,
    message := "Canvas missing fallback content",
    validate := fun _ doc =>
      .ok (!jsIncludes doc "</canvas>" || !regexTest reCanvasEmpty doc),
    recommendation := "Provide descriptive fallback content between <canvas> tags." }

/-- Catalog rule R13 (`audio`, level A). -/
def R13 : Rule :=
  { id := "R13", tag := "audio", level := "A",
    regex := reTag "audio" false,
    message := "Audio element missing transcript",
    validate := fun _ doc =>
      .ok (!jsIncludes doc "<transcript>" && !jsIncludes doc "<p>"),
    recommendation := "Provide a transcript of the audio content, including dialogues and relevant sounds, in a <p> or <transcript> tag." }

/-- Catalog rule R14 (`object`, level A). -/
def R14 : Rule :=
  { id := "R14", tag := "object", level := "A",
    regex := reTag "object" false,
    message := "Object containing only audio missing transcript",
    validate := fun _ doc =>
      .ok (!jsIncludes doc "<transcript>" && !jsIncludes doc "<p>"),
    recommendation := "Include a transcript of the audio content outside the <object> tag to detail the audio content." }

/-- Catalog rule R15 (`video`, level A). -/
def R15 : Rule :=
  { id := "R15", tag := "video", level := "A",
    regex := reTag "video" false,
    message := "Video missing textual description",
    validate := fun _ doc =>
      .ok (!jsIncludes doc "<track kind='descriptions'>" && !jsIncludes doc "<p>"),
    recommendation := "Provide a textual description of the video content in a <p> tag or include a <track> element with kind='descriptions'." }

/-- Catalog rule R16 (`video`, level A). -/
def R16 : Rule :=
  { id := "R16", tag := "video", level := "A",
    regex := reTag "video" false,
    message := "Video missing subtitles",
    validate := fun _ doc => .ok (!jsIncludes doc "<track kind='subtitles'>"),
    recommendation := "Add a <track> element with kind='subtitles' to provide synchronized subtitles for the video." }

/-- Catalog rule R17 (`track`, level A). -/
def R17 : Rule :=
  { id := "R17", tag := "track", level := "A",
    regex := reTag "track" false,
    message := "Track element missing kind='subtitles'",
    validate := fun tag _ => .ok (!jsIncludes tag "kind='subtitles'"),
    recommendation := "Ensure the <track> element includes kind='subtitles' and other necessary attributes like src, srclang, and label." }

/-- Catalog rule R18 (`video`, level A). -/
def R18 : Rule :=
  { id := "R18", tag := "video", level := "A",
    regex := reTag "video" false,
    message := "Video missing audio description",
    validate := fun _ doc => .ok (!jsIncludes doc "<track kind='descriptions'>"),
    recommendation := "Add a <track> element with kind='descriptions' to provide an audio description for visually impaired users." }

/-- Catalog rule R19 (`object`, level A). -/
def R19 : Rule :=
  { id := "R19", tag := "object", level := "A",
    regex := reTag "object" false,
    message := "Object missing audio description",
    validate := fun _ doc =>
      .ok (!jsIncludes doc "<track kind='descriptions'>" && !jsIncludes doc "<p>"),
    recommendation := "Ensure the embedded multimedia in the <object> tag includes synchronized audio descriptions or provide a textual description nearby." }

/-- Catalog rule R20 (`video`, level AA). -/
def R20 : Rule :=
  { id := "R20", tag := "video", level := "AA",
    regex := reTag "video" false,
    message := "Video missing synchronized audio description",
    validate := fun _ doc => .ok (!jsIncludes doc "<track kind='descriptions'>"),
    recommendation := "Include a <track> element with kind='descriptions' to provide synchronized audio descriptions for the video." }

/-- Catalog rule R21 (`object`, level AA). -/
def R21 : Rule :=
  { id := "R21", tag := "object", level := "AA",
    regex := reTag "object" false,
    message := "Object missing synchronized audio description",
    validate := fun _ doc =>
      .ok (!jsIncludes doc "<track kind='descriptions'>" && !jsIncludes doc "<p>"),
    recommendation := "Ensure the multimedia embedded in the <object> tag includes synchronized audio descriptions or provide a detailed textual description nearby." }

/-- Catalog rule R22 (`table`, level A). -/
def R22 : Rule :=
  { id := "R22", tag := "table", level := "A",
    regex := reTag "table" false,
    message := "Table missing semantic structure",
    validate := fun _ doc =>
      .ok (!jsIncludes doc "<thead>" || !jsIncludes doc "<tbody>"),
    recommendation := "Use <thead>, <tbody>, and <tfoot> to group rows and provide a clear structure for the table." }

/-- Catalog rule R23 (`caption`, level A). -/
def R23 : Rule :=
  { id := "R23", tag := "caption", level := "A",
    regex := reTag "caption" false,
    message := "Table missing caption",
    validate := fun _ doc => .ok (!jsIncludes doc "<caption>"),
    recommendation := "Add a <caption> as the first child of the <table> to describe its purpose." }

/-- Catalog rule R24 (`th`, level A). -/
def R24 : Rule :=
  { id := "R24", tag := "th", level := "A",
    regex := reTag "th" false,
    message := "Table header missing association",
    validate := fun tag doc =>
      .ok (!jsIncludes tag "id=" || !jsIncludes doc "headers="),
    recommendation := "Use the id attribute in <th> and the headers attribute in <td> to associate data cells with their headers." }

/-- Catalog rule R25 (`fieldset`, level A). -/
def R25 : Rule :=
  { id := "R25", tag := "fieldset", level := "A",
    regex := reTag "fieldset" false,
    message := "Form controls not grouped",
    validate := fun _ doc => .ok (!jsIncludes doc "<legend>"),
    recommendation := "Use <fieldset> to group related form controls and include a <legend> to describe the group." }

/-- Catalog rule R26 (`legend`, level A). -/
def R26 : Rule :=
  { id := "R26", tag := "legend", level := "A",
    regex := reTag "legend" false,
    message := "Fieldset missing legend",
    validate := fun _ doc => .ok (!jsIncludes doc "<legend>"),
    recommendation := "Add a <legend> inside the <fieldset> to describe the group of form controls." }

/-- Catalog rule R27 (`label`, level A). -/
def R27 : Rule :=
  { id := "R27", tag := "label", level := "A",
    regex := reTag "label" false,
    message := "Form field missing label",
    validate := fun tag doc =>
      .ok (!jsIncludes tag "for=" || !jsIncludes doc "id="),
    recommendation := "Ensure each form field has a <label> associated with it using the for attribute and a matching id on the input." }

/-- The test `/<h[1-6][^>]*>/` of rule R28's predicate. -/
def reH16 : JsRegex := { pat := pseq [pchr '<', ph16, pattrs, pchr '>'] }

/-- Catalog rule R28 (`h1`, level A): the pattern matches any heading, the
predicate asks whether the document has none (over the whole text). -/
def R28 : Rule :=
  { id := "R28", tag := "h1", level := "A",
    regex := { pat := pseq [pchr '<', ph16, pattrs, pchr '>'] },
    message := "Content missing heading structure",
    validate := fun _ doc => .ok (!regexTest reH16 doc),
    recommendation := "Use <h1> to <h6> to organize content hierarchically and improve navigation." }

/-- Catalog rule R29 (`ul`, level A). -/
def R29 : Rule :=
  { id := "R29", tag := "ul", level := "A",
    regex := reTag "ul" false,
    message := "List missing semantic structure",
    validate := fun _ doc => .ok (!jsIncludes doc "<li>"),
    recommendation := "Use <ul> or <ol> for lists and include <li> for each list item." }

/-- The test `/<section[^>]*>[\s\S]*?<h[1-6][^>]*>/` of rule R30. -/
def reSectionHeading : JsRegex :=
  { pat := pseq [plit "<section", pattrs, pchr '>', pstarL panyAll,
                 pchr '<', ph16, pattrs, pchr '>'] }

/-- Catalog rule R30 (`section`, level A). -/
def R30 : Rule :=
  { id := "R30", tag := "section", level := "A",
    regex := reTag "section" false,
    message := "Section missing heading",
    validate := fun _ doc => .ok (!regexTest reSectionHeading doc),
    recommendation := "Include a heading (<h1> to <h6>) inside each <section> element to describe its content." }

/-- The test `/<article[^>]*>[\s\S]*?<h[1-6][^>]*>/` of rule R31. -/
def reArticleHeading : JsRegex :=
  { pat := pseq [plit "<article", pattrs, pchr '>', pstarL panyAll,
                 pchr '<', ph16, pattrs, pchr '>'] }

/-- Catalog rule R31 (`article`, level A). -/
def R31 : Rule :=
  { id := "R31", tag := "article", level := "A",
    regex := reTag "article" false,
    message := "Article missing heading",
    validate := fun _ doc => .ok (!regexTest reArticleHeading doc),
    recommendation := "Include a heading (<h1> to <h6>) inside each <article> to provide a descriptive title." }

/-- Catalog rule R32 (`ol`, level A). -/
def R32 : Rule :=
  { id := "R32", tag := "ol", level := "A",
    regex := reTag "ol" false,
    message := "Ordered list missing structure",
    validate := fun _ doc => .ok (!jsIncludes doc "<li>"),
    recommendation := "Use <li> elements inside <ol> to define each item in the ordered list." }

/-- Catalog rule R33 (`ul`, level A). -/
def R33 : Rule :=
  { id := "R33", tag := "ul", level := "A",
    regex := reTag "ul" false,
    message := "Unordered list missing structure",
    validate := fun _ doc => .ok (!jsIncludes doc "<li>"),
    recommendation := "Use <li> elements inside <ul> to define each item in the unordered list." }

/-- The test `/<(ul|ol|dl)[^>]*>[\s\S]*?<li[^>]*>[\s\S]*?<\/li>/gi` of rule
R34's predicate. -/
def reValidList : JsRegex :=
  { pat := pseq [pchr '<', .grp 1 (palt [plit "ul", plit "ol", plit "dl"]),
                 pattrs, pchr '>', pstarL panyAll, plit "<li", pattrs, pchr '>',
                 pstarL panyAll, plit "</li>"],
    ci := true }

/-- The navigation heuristic
`/<nav[\s\S]*?<li[^>]*>[\s\S]*?<a[^>]*>.*?<\/a>[\s\S]*?<\/li>[\s\S]*?<\/nav>/gi`
of rule R34's predicate (no `s` flag: its dots stop at newlines). -/
def reLikelyNav : JsRegex :=
  { pat := pseq [plit "<nav", pstarL panyAll, plit "<li", pattrs, pchr '>',
                 pstarL panyAll, plit "<a", pattrs, pchr '>', pstarL pdot,
                 plit "</a>", pstarL panyAll, plit "</li>", pstarL panyAll,
                 plit "</nav>"],
    ci := true }

/-- Catalog rule R34 (`li`, level A): pattern `/<li(\s|>)/gi`. -/
def R34 : Rule :=
  { id := "R34", tag := "li", level := "A",
    regex := { pat := pseq [plit "<li", .grp 1 (palt [pws, pchr '>'])], ci := true },
    message := "List item outside of a list",
    validate := fun tag doc =>
      if jsIncludes tag "<!--" || jsIncludes tag "-->" then .ok false
      else
        let isInsideValidList := regexTest reValidList doc
        let isLikelyNav := regexTest reLikelyNav doc
        .ok (!isInsideValidList && !isLikelyNav),
    recommendation := "Ensure <li> elements are properly nested inside <ul>, <ol>, or <dl> elements. Avoid using <li> outside list contexts." }

/-- Catalog rule R35 (`table`, level A). -/
def R35 : Rule :=
  { id := "R35", tag := "table", level := "A",
    regex := reTag "table" false,
    message := "Table with illogical row/column order",
    validate := fun _ doc =>
      .ok (!jsIncludes doc "<thead>" || !jsIncludes doc "<tbody>"),
    recommendation := "Ensure the table follows a logical visual order using <thead>, <tbody>, and <tfoot>." }

/-- Catalog rule R36 (`thead`, level A). -/
def R36 : Rule :=
  { id := "R36", tag := "thead", level := "A",
    regex := reTag "thead" false,
    message := "Table head is missing or misused",
    validate := fun _ doc => .ok (!jsIncludes doc "<thead>"),
    recommendation := "Include a <thead> section at the top of your table to group header rows." }

/-- Catalog rule R37 (`tbody`, level A). -/
def R37 : Rule :=
  { id := "R37", tag := "tbody", level := "A",
    regex := reTag "tbody" false,
    message := "Table body missing or unordered",
    validate := fun _ doc => .ok (!jsIncludes doc "<tbody>"),
    recommendation := "Use <tbody> to group the main content rows and ensure logical row ordering." }

/-- The word test `/red|blue|green|circle|square|round|arrow|triangle/` of
rule R38's predicate. -/
def reColorShapeWords : JsRegex :=
  { pat := palt [plit "red", plit "blue", plit "green", plit "circle",
                 plit "square", plit "round", plit "arrow", plit "triangle"] }

/-- Catalog rule R38 (`p, span, strong, em`, level A). -/
def R38 : Rule :=
  { id := "R38", tag := "p, span, strong, em", level := "A",
    regex := reAltTag [plit "p", plit "span", plit "strong", plit "em"] true,
    message := "Instruction depends only on color or shape",
    validate := fun tag _ =>
      .ok (regexTest reColorShapeWords (jsToLower tag) &&
           !jsIncludes tag "aria-label" && !jsIncludes tag "title"),
    recommendation := "Do not rely solely on color or shape for instructions. Add visible text or use aria-label/title to describe the purpose." }

/-- Catalog rule R39 (`input, select, textarea, form`, level AA). -/
def R39 : Rule :=
  { id := "R39", tag := "input, select, textarea, form", level := "AA",
    regex := reAltTag [plit "input", plit "select", plit "textarea", plit "form"] true,
    message := "Form element missing or misusing autocomplete attribute",
    validate := fun tag _ =>
      if jsIncludes tag "<!--" || jsIncludes tag "-->" then .ok false
      else
        let tagLower := jsToLower tag
        .ok (!jsIncludes tagLower "autocomplete=" ||
             jsIncludes tagLower "autocomplete=\"off\"" ||
             jsIncludes tagLower "autocomplete='off'"),
    recommendation := "Use meaningful autocomplete values (e.g., 'name', 'email', 'tel') instead of omitting the attribute or setting it to 'off', to improve form usability and accessibility." }

/-- Catalog rule R40 (`input, select, textarea`, level AAA). -/
def R40 : Rule :=
  { id := "R40", tag := "input, select, textarea", level := "AAA",
    regex := reAltTag [plit "input", plit "select", plit "textarea"] true,
    message := "Form field missing semantic autocomplete attribute",
    validate := fun tag _ =>
      if jsIncludes tag "<!--" || jsIncludes tag "-->" then .ok false
      else
        let lower := jsToLower tag
        .ok (!jsIncludes lower "autocomplete=" ||
             jsIncludes lower "autocomplete=\"off\"" ||
             jsIncludes lower "autocomplete='off'"),
    recommendation := "Use autocomplete attributes like 'bday', 'name', 'address-line1', etc., to help assistive technologies and browsers identify the field’s purpose semantically." }

/-- The test `/color\s*:\s*/i` of rule R41's predicate. -/
def reColorProp : JsRegex :=
  { pat := pseq [plit "color", pstar pws, pchr ':', pstar pws], ci := true }

/-- The test `/(aria-label|title|icon|symbol|text-decoration|underline|border)/i`
of rule R41's predicate. -/
def reVisualCues : JsRegex :=
  { pat := .grp 1 (palt [plit "aria-label", plit "title", plit "icon",
                         plit "symbol", plit "text-decoration", plit "underline",
                         plit "border"]),
    ci := true }

/-- Catalog rule R41 (`inline-styled elements`, level A): pattern
`/<\w+[^>]*style=["'][^"'>]*color\s*:\s*[^;"']+["'][^>]*>/gi`. -/
def R41 : Rule :=
  { id := "R41", tag := "inline-styled elements", level := "A",
    regex := { pat := pseq [pchr '<', pplus pwrd, pattrs, plit "style=", pquote,
                            pstar (pncls "\"'>"), plit "color", pstar pws, pchr ':',
                            pstar pws, pplus (pncls ";\"'"), pquote, pattrs, pchr '>'],
               ci := true },
    message := "Color used as the only visual indicator",
    validate := fun tag doc =>
      .ok (regexTest reColorProp tag && !regexTest reVisualCues doc),
    recommendation := "Avoid relying only on color to convey information. Use additional indicators such as text, underline, icons, or labels to ensure accessibility. See WCAG techniques G14 and G205." }

/-- Catalog rule R42 (`audio`, level A). -/
def R42 : Rule :=
  { id := "R42", tag := "audio", level := "A",
    regex := reTag "audio" false,
    message := "Autoplaying audio without controls",
    validate := fun tag _ =>
      .ok (jsIncludes tag "autoplay" && !jsIncludes tag "controls"),
    recommendation := "Add 'controls' attribute to <audio> or provide visible custom controls for play/pause and volume." }

/-- The test `/color\s*:\s*#[0-9a-fA-F]{3,6}/i` of rule R43's predicate. -/
def reColorHexI : JsRegex :=
  { pat := pseq [plit "color", pstar pws, pchr ':', pstar pws, pchr '#',
                 .rep phex 3 (some 6) false],
    ci := true }

/-- The test `/background-color\s*:/i` of the predicates of R43 and R44. -/
def reBgColorPropI : JsRegex :=
  { pat := pseq [plit "background-color", pstar pws, pchr ':'], ci := true }

/-- Catalog rule R43 (`text elements`, level AA). -/
def R43 : Rule :=
  { id := "R43", tag := "text elements", level := "AA",
    regex := { pat := pseq [pchr '<', .grp 1 (palt [plit "a", plit "p", plit "span", ph16]),
                            pattrs, plit "style=", pquote, pstar (pncls "\"'>"),
                            plit "color", pstar pws, pchr ':', pstar pws, pchr '#',
                            .rep phex 3 (some 6) false, pstar (pncls "\"'>"), pquote,
                            pattrs, pchr '>'],
               ci := true },
    message := "Low text contrast",
    validate := fun tag _ =>
      .ok (regexTest reColorHexI tag && !regexTest reBgColorPropI tag),
    recommendation := "Ensure text has a contrast ratio of at least 4.5:1 against its background. Use tools like Contrast Checker or adjust foreground and background colors appropriately. See WCAG G18." }

/-- The test `/text-shadow\s*:/i` of rule R44's predicate. -/
def reTextShadowI : JsRegex :=
  { pat := pseq [plit "text-shadow", pstar pws, pchr ':'], ci := true }

/-- Catalog rule R44 (`text over image`, level AA). -/
def R44 : Rule :=
  { id := "R44", tag := "text over image", level := "AA",
    regex := { pat := pseq [pchr '<', .grp 1 (palt [plit "a", plit "p", plit "span", ph16]),
                            pattrs, plit "style=", pquote, pstar (pncls "\"'>"),
                            plit "background", popt (plit "-image"), pstar pws,
                            pchr ':', pstar pws,
                            .grp 2 (palt [plit "url(", plit "linear-gradient"]),
                            pstar (pncls "\"'>"), pquote, pattrs, pchr '>'],
               ci := true },
    message := "Text over image or gradient lacks contrast support",
    validate := fun tag _ =>
      .ok (!regexTest reBgColorPropI tag && !regexTest reTextShadowI tag),
    recommendation := "Use a solid background color or text shadow to ensure text remains legible over images or gradients. See WCAG G145." }

/-- The case-sensitive test `/font-size\s*:\s*\d+px/` of rule R45's
predicate. -/
def reFontSizePx : JsRegex :=
  { pat := pseq [plit "font-size", pstar pws, pchr ':', pstar pws,
                 pplus pdig, plit "px"] }

/-- Catalog rule R45 (`text containers`, level AA). -/
def R45 : Rule :=
  { id := "R45", tag := "text containers", level := "AA",
    regex := { pat := pseq [pchr '<',
                            .grp 1 (palt [plit "html", plit "body", plit "div",
                                          plit "span", plit "p", plit "a", ph16]),
                            pattrs, plit "style=", pquote, pstar (pncls "\"'>"),
                            plit "font-size", pstar pws, pchr ':', pstar pws,
                            pplus pdig, plit "px", pstar (pncls "\"'>"), pquote,
                            pattrs, pchr '>'],
               ci := true },
    message := "Fixed text size using 'px' prevents proper text resizing",
    validate := fun tag _ => .ok (regexTest reFontSizePx tag),
    recommendation := "Use relative units like em, rem, or % instead of px for font size to support text resizing. This ensures compliance with WCAG techniques G142 and C28." }

/-- The test `/alt=["'][a-zA-Z\s\d]{3,}["']/` of rule R46's predicate. -/
def reAltText : JsRegex :=
  { pat := pseq [plit "alt=", pquote,
                 .rep (.ch (.cls false [.range 'a' 'z', .range 'A' 'Z', .ws, .digit]))
                   3 none false,
                 pquote] }

/-- The test `/alt=["']\s*["']/` of rule R46's predicate. -/
def reAltEmpty : JsRegex :=
  { pat := pseq [plit "alt=", pquote, pstar pws, pquote] }

/-- Catalog rule R46 (`img`, level AA). -/
def R46 : Rule :=
  { id := "R46", tag := "img", level := "AA",
    regex := reTag "img" false,
    message := "Image of text used instead of HTML text",
    validate := fun tag _ =>
      .ok (jsIncludes tag "alt=" && regexTest reAltText tag &&
           !jsIncludes tag "logo" && !jsIncludes tag "logotipo" &&
           !regexTest reAltEmpty tag),
    recommendation := "Avoid using images to convey textual information. Use HTML text styled with CSS unless the image is a logo or required for specific presentation. Ensure alt text conveys the same message if an image must be used." }

/-- The test `/<(canvas|svg|object)/` of rule R47's predicate. -/
def reCanvasSvgObject : JsRegex :=
  { pat := pseq [pchr '<', .grp 1 (palt [plit "canvas", plit "svg", plit "object"])] }

/-- The test `/class=["'][^"']*(visually-hidden|sr-only)[^"']*["']/` of rule
R47's predicate. -/
def reHiddenClass : JsRegex :=
  { pat := pseq [plit "class=", pquote, pstar (pncls "\"'"),
                 .grp 1 (palt [plit "visually-hidden", plit "sr-only"]),
                 pstar (pncls "\"'"), pquote] }

/-- Catalog rule R47 (`img|canvas|svg|object`, level AAA). -/
def R47 : Rule :=
  { id := "R47", tag := "img|canvas|svg|object", level := "AAA",
    regex := reAltTag [plit "img", plit "canvas", plit "svg", plit "object"] false,
    message := "Text rendered with image elements instead of HTML",
    validate := fun tag doc =>
      .ok (regexTest reCanvasSvgObject tag &&
           jsIncludes (jsToLower doc) "text" &&
           !jsIncludes tag "aria-label" && !jsIncludes tag "aria-hidden" &&
           !regexTest reHiddenClass doc),
    recommendation := "Avoid using images, canvas, SVG, or object to render text unless necessary. Use real HTML text and style it with CSS. If unavoidable, provide accessible alternatives like aria-label or visually hidden content." }

/-- Catalog rule R48 (`a|body|div|html|img|main|p|section`, level AA): the
last rule before the catalog's hole. -/
def R48 : Rule :=
  { id := "R48", tag := "a|body|div|html|img|main|p|section", level := "AA",
    regex := { pat := pseq [pchr '<',
                            .grp 1 (palt [plit "a", plit "body", plit "div",
                                          plit "html", plit "img", plit "main",
                                          plit "p", plit "section"]),
                            pws, pattrs, plit "style", pstar pws, pchr '=',
                            pstar pws, pquote, pstar (pncls "\"'>"), plit "width",
                            pstar pws, pchr ':', pstar pws, pplus pdig, plit "px",
                            pstar (pncls "\"'>"), pquote, pattrs, pchr '>'],
               ci := true },
    message := "Element with inline fixed pixel width found. This might cause reflow issues when text is resized or on smaller viewports.",
    validate := fun tag _ =>
      if jsIncludes (jsToLower tag) "max-width" then .ok false
      else .ok true,
    recommendation := "Avoid inline fixed pixel widths (e.g., style='width:300px') on containers. Use relative units (%, vw, em, rem) and techniques like max-width to allow content to reflow. Manually review external CSS for other fixed-width issues affecting WCAG 1.4.10 (Reflow)." }

/-- The case-sensitive test `/background-color\s*:\s*#[0-9a-fA-F]{3,6}/` of
rule R49's predicate. -/
def reBgColorHex : JsRegex :=
  { pat := pseq [plit "background-color", pstar pws, pchr ':', pstar pws,
                 pchr '#', .rep phex 3 (some 6) false] }

/-- The case-sensitive test `/color\s*:\s*#[0-9a-fA-F]{3,6}/` of rule R49's
predicate. -/
def reColorHex : JsRegex :=
  { pat := pseq [plit "color", pstar pws, pchr ':', pstar pws,
                 pchr '#', .rep phex 3 (some 6) false] }

/-- Catalog rule R49 (`button|canvas|img|input|select|svg`, level AA): the
first rule after the catalog's hole. -/
def R49 : Rule :=
  { id := "R49", tag := "button|canvas|img|input|select|svg", level := "AA",
    regex := reAltTag [plit "button", plit "canvas", plit "img", plit "input",
                       plit "select", plit "svg"] true,
    message := "Non-text UI element might have insufficient contrast",
    validate := fun tag _ =>
      .ok (regexTest reBgColorHex tag && regexTest reColorHex tag),
    recommendation := "Ensure UI elements have at least a 3:1 contrast ratio between foreground and background colors. Use visual indicators like borders or highlights for focus and active states." }

/-- Catalog rule R50 (`p|span|li|h[1-6]`, level AA): the source's predicate
returns `true` on both of its branches. -/
def R50 : Rule :=
  { id := "R50", tag := "p|span|li|h[1-6]", level := "AA",
    regex := { pat := pseq [pchr '<',
                            .grp 1 (palt [plit "p", plit "span", plit "li", ph16]),
                            pattrs, plit "style", pstar pws, pchr '=', pstar pws,
                            pquote, pstar (pncls "\"'>"), plit "height", pstar pws,
                            pchr ':', pstar pws, pplus pdig, plit "px",
                            pstar (pncls "\"'>"), pquote, pattrs, pchr '>'],
               ci := true },
    message := "Text element with fixed inline height may not support spacing adjustments",
    validate := fun tag _ =>
      if jsIncludes (jsToLower tag) "overflow" && jsIncludes (jsToLower tag) "hidden" then
        .ok true
      else .ok true,
    recommendation := "Ensure text elements with fixed heights can accommodate adjusted text spacing without loss of content, or use min-height/relative units instead. WCAG 1.4.12." }

/-- Catalog rule R51 (`button|a|input|label`, level AA). -/
def R51 : Rule :=
  { id := "R51", tag := "button|a|input|label", level := "AA",
    regex := reAltTag [plit "button", plit "a", plit "input", plit "label"] true,
    message := "Content triggered by hover or focus may not be dismissible",
    validate := fun tag doc =>
      .ok ((jsIncludes tag "onmouseover" || jsIncludes tag "onfocus") &&
           !(jsIncludes tag "onmouseleave" || jsIncludes tag "onblur" ||
             jsIncludes doc "aria-describedby")),
    recommendation := "Ensure that content triggered on hover or focus can be dismissed without moving the pointer or losing focus. Use proper event handling or aria-describedby patterns." }

/-- The test `/onkeydown\s*=|onkeyup\s*=|onkeypress\s*=/` of rule R52's
predicate. -/
def reKeyEvents : JsRegex :=
  { pat := palt [pseq [plit "onkeydown", pstar pws, pchr '='],
                 pseq [plit "onkeyup", pstar pws, pchr '='],
                 pseq [plit "onkeypress", pstar pws, pchr '=']] }

/-- The widget-role test of rule R52's predicate. -/
def reWidgetRole : JsRegex :=
  { pat := pseq [plit "role", pstar pws, pchr '=', pstar pws, pquote,
                 .grp 1 (palt [plit "button", plit "checkbox", plit "menuitem",
                               plit "menuitemcheckbox", plit "menuitemradio",
                               plit "option", plit "radio", plit "slider",
                               plit "spinbutton", plit "switch", plit "tab",
                               plit "treeitem"]),
                 pquote] }

/-- Catalog rule R52 (`div|span`, level A). -/
def R52 : Rule :=
  { id := "R52", tag := "div|span", level := "A",
    regex := { pat := pseq [pchr '<', .grp 1 (palt [plit "div", plit "span"]),
                            pws, pattrs, plit "onclick", pstar pws, pchr '=',
                            pattrs, pchr '>'],
               ci := true },
    message := "Custom control created with div/span has an onclick but may lack full keyboard accessibility.",
    validate := fun tagString _ =>
      let lowerTag := jsToLower tagString
      let hasTabindex := jsIncludes lowerTag "tabindex="
      let hasKeyboardEvent := regexTest reKeyEvents lowerTag
      let hasInteractiveAriaRole := regexTest reWidgetRole lowerTag
      if !hasTabindex && !hasKeyboardEvent && !hasInteractiveAriaRole then .ok true
      else .ok false,
    recommendation := "If using non-interactive elements like <div> or <span> as custom controls (e.g., with an 'onclick' attribute), ensure they are keyboard accessible: add 'tabindex=\"0\"' to make them focusable, provide an appropriate interactive ARIA role (e.g., role='button'), and handle keyboard events (e.g., Enter/Space key for activation). Prefer using native <button> or <a> elements for interactive controls. [WCAG 2.1.1, 4.1.2]" }

/-- Catalog rule R53 (`a|button|input|label|select|textarea|div|span`,
level A). -/
def R53 : Rule :=
  { id := "R53", tag := "a|button|input|label|select|textarea|div|span", level := "A",
    regex := { pat := pseq [pchr '<',
                            .grp 1 (palt [plit "a", plit "button", plit "input",
                                          plit "label", plit "select", plit "textarea",
                                          plit "div", plit "span"]),
                            pattrs, plit "onclick=", pattrs, pchr '>'],
               ci := true },
    message := "Interactive element lacks keyboard event support or semantic structure",
    validate := fun tag _ =>
      .ok (jsIncludes tag "onclick" && !jsIncludes tag "onkeypress" &&
           !jsIncludes tag "onkeydown" && !jsIncludes tag "role" &&
           !jsIncludes tag "tabindex"),
    recommendation := "Add keyboard handlers (onkeydown, onkeypress) and consider using semantic HTML elements like <button> or <a> instead of generic <div> or <span>." }

/-- Catalog rule R54 (`a|button|input`, level A). -/
def R54 : Rule :=
  { id := "R54", tag := "a|button|input", level := "A",
    regex := reAltTag [plit "a", plit "button", plit "input"] true,
    message := "Component may trap keyboard focus",
    validate := fun tag doc =>
      .ok (jsIncludes tag "tabindex" && jsIncludes tag "tabindex=\"-1\"" &&
           !jsIncludes doc "onkeydown" && !jsIncludes doc "Escape" &&
           !jsIncludes doc "Tab"),
    recommendation := "Ensure users can exit focusable components using keyboard (Tab or Esc). Don't trap focus unless you provide a clear exit." }

/-- Catalog rule R55 (`a|button`, level A). -/
def R55 : Rule :=
  { id := "R55", tag := "a|button", level := "A",
    regex := { pat := pseq [pchr '<', .grp 1 (palt [plit "a", plit "button"]),
                            pattrs, plit "accesskey=", pquote, pplus (pncls "\"'"),
                            pquote, pattrs, pchr '>'],
               ci := true },
    message := "Accesskey defined without flexibility",
    validate := fun tag _ => .ok (jsIncludes tag "accesskey="),
    recommendation := "Allow users to customize or disable accesskey combinations. Document the used keys to avoid conflicts." }

/-- Catalog rule R56 (`video|audio|marquee`, level A). -/
def R56 : Rule :=
  { id := "R56", tag := "video|audio|marquee", level := "A",
    regex := reAltTag [plit "video", plit "audio", plit "marquee"] true,
    message := "Media content autoplaying without user controls",
    validate := fun tag _ =>
      .ok (jsIncludes tag "autoplay" && !jsIncludes tag "controls"),
    recommendation := "Avoid autoplay or include visible controls to let users pause, stop or control playback." }

/-- The case-sensitive test `/role\s*=\s*["']main["']/` of rule R57's
predicate. -/
def reRoleMain : JsRegex :=
  { pat := pseq [plit "role", pstar pws, pchr '=', pstar pws, pquote,
                 plit "main", pquote] }

/-- The skip-link heuristic of rule R57's predicate (flag `i` only). -/
def reSkipLink : JsRegex :=
  { pat := pseq [plit "<a", pws, pattrs, plit "href", pstar pws, pchr '=',
                 pstar pws, pquote, pchr '#', pwrd, pstar (pncls "\"'"), pquote,
                 pattrs, pchr '>', pstarL panyAll,
                 .grp 1 (palt [plit "skip", plit "main", plit "content",
                               plit "primary",
                               pseq [plit "jump", pplus pws, plit "to"],
                               pseq [plit "go", pplus pws, plit "to"]]),
                 pstarL panyAll, plit "</a>"],
    ci := true }

/-- Catalog rule R57 (`a|main|nav`, level A). -/
def R57 : Rule :=
  { id := "R57", tag := "a|main|nav", level := "A",
    regex := { pat := pseq [pchr '<',
                            .grp 1 (palt [pseq [pchr 'a', pplus pws, pattrs,
                                                plit "href=", pquote, plit "#main",
                                                pquote, pattrs],
                                          plit "main", plit "nav"]),
                            pattrs, pchr '>'],
               ci := true },
    message := "Review page for a 'skip to main content' link mechanism and corresponding main landmark. [WCAG 2.4.1]",
    validate := fun _ doc =>
      let hasMainLandmarkInDoc := jsIncludes doc "<main" || regexTest reRoleMain doc
      let hasPlausibleSkipLinkInDoc := regexTest reSkipLink doc
      if !hasMainLandmarkInDoc then .ok true
      else if hasMainLandmarkInDoc && !hasPlausibleSkipLinkInDoc then .ok true
      else .ok false,
    recommendation := "Ensure a 'skip to main content' link is one of the first focusable elements on the page and is visible when it receives keyboard focus (it can be initially hidden but must become visible on focus). This link should target the primary content area, identified by a <main> element (with an id) or an element with role='main' (with an id). If your skip link uses different text than common keywords (e.g., 'Skip', 'Main', 'Content'), this automated check might not detect it; in such cases, please manually verify compliance. [WCAG G1, H69]" }

/-- Catalog rule R58 (`title`, level A). -/
def R58 : Rule :=
  { id := "R58", tag := "title", level := "A",
    regex := { pat := pseq [plit "<title", pattrs, pchr '>', .grp 1 (pstarL pdot),
                            plit "</title>"],
               ci := true },
    message := "Missing or non-descriptive page title",
    validate := fun tag _ =>
      .ok (tag = "" || Nat.blt tag.length 15 || jsIncludes (jsToLower tag) "untitled"),
    recommendation := "Ensure the <title> inside <head> is descriptive and meaningful for the page content." }

/-- The test `/tabindex=["']?-1["']/` of rule R59's predicate. -/
def reTabindexM1 : JsRegex :=
  { pat := pseq [plit "tabindex=", popt pquote, plit "-1", pquote] }

/-- Catalog rule R59 (`any`, level A). -/
def R59 : Rule :=
  { id := "R59", tag := "any", level := "A",
    regex := { pat := pseq [pchr '<', pattrs, plit "tabindex", pstar pws, pchr '=',
                            pstar pws, popt pquote, popt (pchr '-'), pplus pdig,
                            pquote, pattrs, pchr '>'],
               ci := true },
    message := "Potential focus order issue due to tabindex",
    validate := fun tag _ =>
      .ok (jsIncludes tag "tabindex" && regexTest reTabindexM1 tag),
    recommendation := "Use tabindex carefully. Avoid tabindex='-1' unless intentionally removing an element from the tab sequence." }

/-- The stripper `/<[^>]+>/g` of rule R60's predicate. -/
def reAnyTag : JsRegex := { pat := pseq [pchr '<', pplus (pncls ">"), pchr '>'] }

/-- Catalog rule R60 (`a`, level A). -/
def R60 : Rule :=
  { id := "R60", tag := "a", level := "A",
    regex := { pat := pseq [plit "<a", pattrs, pchr '>', .grp 1 (pstarL pdot),
                            plit "</a>"],
               ci := true },
    message := "Link text is vague or meaningless",
    validate := fun tag _ =>
      let inner := jsToLower (jsTrim (regexReplaceAll reAnyTag tag ""))
      .ok (["", "click here", "read more", "more", "details"].contains inner),
    recommendation := "Write meaningful link text that explains the action or destination, e.g., 'View pricing details'." }

/-- The test `/<nav[^>]*>|role\s*=\s*["']navigation["']/` of rule R61's
predicate. -/
def reNavOrRole : JsRegex :=
  { pat := palt [pseq [plit "<nav", pattrs, pchr '>'],
                 pseq [plit "role", pstar pws, pchr '=', pstar pws, pquote,
                       plit "navigation", pquote]] }

/-- The search-mechanism test of rule R61's predicate. -/
def reSearchForm : JsRegex :=
  { pat := palt [pseq [plit "<form", pws, pattrs, plit "role", pstar pws,
                       pchr '=', pstar pws, pquote, plit "search", pquote,
                       pattrs, pchr '>'],
                 pseq [plit "<input", pws, pattrs, plit "type", pstar pws,
                       pchr '=', pstar pws, pquote, plit "search", pquote]] }

/-- The sitemap-link test `/<a\s[^>]*href\s*=\s*["'][^"'>]*sitemap[^"'>]*["'][^>]*>/i`
of rule R61's predicate. -/
def reSitemapLink : JsRegex :=
  { pat := pseq [plit "<a", pws, pattrs, plit "href", pstar pws, pchr '=',
                 pstar pws, pquote, pstar (pncls "\"'>"), plit "sitemap",
                 pstar (pncls "\"'>"), pquote, pattrs, pchr '>'],
    ci := true }

/-- Catalog rule R61 (`nav|a|ul|ol`, level AA): counts the document-level
navigation mechanisms (its `try`/`catch` cannot fire here: the embedded
tests are total). -/
def R61 : Rule :=
  { id := "R61", tag := "nav|a|ul|ol", level := "AA",
    regex := reAltTag [plit "nav", plit "a", plit "ul", plit "ol"] true,
    message := "Ensure the site offers multiple ways to find pages (e.g., navigation menu, search, sitemap), unless the page is part of a process. [WCAG 2.4.5]",
    validate := fun _ doc =>
      if Nat.blt 0 doc.length then
        let m1 := if regexTest reNavOrRole doc then 1 else 0
        let m2 := if regexTest reSearchForm doc then 1 else 0
        let m3 := if regexTest reSitemapLink doc then 1 else 0
        .ok (Nat.blt (m1 + m2 + m3) 2)
      else .ok true,
    recommendation := "Provide at least two distinct ways to find other web pages on the site, such as: a main navigation menu/bar (using <nav> or role='navigation'), a site search feature, and/or a link to a sitemap. This does not apply to pages that are part of a process (e.g., steps in a checkout). If an error occurred during this automated check, please review this requirement manually. [WCAG 2.4.5]" }

/-- The test `/for\s*=\s*["']?[^"'\s>]+["']?/` of rule R62's predicate. -/
def reForAttr : JsRegex :=
  { pat := pseq [plit "for", pstar pws, pchr '=', pstar pws, popt pquote,
                 pplus (.ch (.cls true [.ch '"', .ch '\'', .ws, .ch '>'])),
                 popt pquote] }

/-- The test `/aria-label\s*=\s*["'](?!["'])[^"']+["']/` of the predicates of
R62 and R81. -/
def reAriaLabelFilled : JsRegex :=
  { pat := pseq [plit "aria-label", pstar pws, pchr '=', pstar pws, pquote,
                 .nla pquote, pplus (pncls "\"'"), pquote] }

/-- The anchored test `/^<h[1-6]/` of rule R62's predicate. -/
def reH16Start : JsRegex := { pat := pseq [.bos, pchr '<', ph16] }

/-- Catalog rule R62 (`label|h1|...|h6`, level AA). -/
def R62 : Rule :=
  { id := "R62", tag := "label|h1|h2|h3|h4|h5|h6", level := "AA",
    regex := { pat := pseq [pchr '<', .grp 1 (palt [plit "label", ph16]),
                            .rep (.grp 2 (pseq [pws, pattrs])) 0 (some 1) false,
                            pchr '>'],
               ci := true },
    message := "Form controls or headings may need review for semantic clarity or proper association.",
    validate := fun tagString _ =>
      let lowerTagString := jsToLower tagString
      if jsStartsWith lowerTagString "<label" then
        let hasFor := regexTest reForAttr lowerTagString
        let hasAriaLabel := regexTest reAriaLabelFilled lowerTagString
        if !hasFor && !hasAriaLabel then .ok true
        else .ok false
      else if regexTest reH16Start lowerTagString then .ok false
      else .ok false,
    recommendation := "For <label> elements, ensure they are correctly associated with form controls, typically using the 'for' attribute referencing the control's 'id', or by wrapping the control. Consider 'aria-label' if a visible label is not desired. For <h1>-<h6> headings, manually review their content for clarity and ensure they are used in a logical hierarchical order to structure the page content. [WCAG 2.4.6]" }

/-- Catalog rule R63 (`button|a|input|select|textarea`, level AA). -/
def R63 : Rule :=
  { id := "R63", tag := "button|a|input|select|textarea", level := "AA",
    regex := reAltTag [plit "button", plit "a", plit "input", plit "select",
                       plit "textarea"] true,
    message := "Interactive element lacks visible focus indicator",
    validate := fun _ doc =>
      .ok (!jsIncludes doc ":focus" && !jsIncludes doc "outline"),
    recommendation := "Ensure interactive elements are styled with visible focus indicators (e.g., :focus with outline or border)." }

/-- The test `/>[^<]{3,}</` of rule R64's predicate. -/
def reText3 : JsRegex :=
  { pat := pseq [pchr '>', .rep (pncls "<") 3 none false, pchr '<'] }

/-- Catalog rule R64 (`a`, level AAA). -/
def R64 : Rule :=
  { id := "R64", tag := "a", level := "AAA",
    regex := { pat := pseq [plit "<a", pattrs, pchr '>',
                            .grp 1 (palt [pstar pws,
                                          pseq [plit "<i", pattrs, pchr '>',
                                                pstar pws, plit "</i>"],
                                          pseq [plit "<span", pattrs, pchr '>',
                                                pstar pws, plit "</span>"]]),
                            plit "</a>"],
               ci := true },
    message := "Link is empty, icon-only, or lacks descriptive text",
    validate := fun tag _ =>
      .ok (!regexTest reText3 tag && !jsIncludes tag "aria-label" &&
           !jsIncludes tag "title"),
    recommendation := "Ensure links have meaningful text or use aria-label/title attributes if icon-only." }

/-- The test `/<h[1-6][^>]*>.*<\/h[1-6]>/i` of rule R65's predicate (no `s`
flag: the dot stops at newlines). -/
def reFullHeading : JsRegex :=
  { pat := pseq [pchr '<', ph16, pattrs, pchr '>', pstar pdot, plit "</",
                 ph16, pchr '>'],
    ci := true }

/-- Catalog rule R65 (`h1|...|h6`, level AAA). -/
def R65 : Rule :=
  { id := "R65", tag := "h1|h2|h3|h4|h5|h6", level := "AAA",
    regex := { pat := pseq [pchr '<', .grp 1 ph16, pattrs, pchr '>'], ci := true },
    message := "Missing semantic heading structure",
    validate := fun _ doc => .ok (!regexTest reFullHeading doc),
    recommendation := "Use semantic HTML headings (<h1>–<h6>) to convey the structure of the page." }

/-- Catalog rule R66 (`label`, level AAA). -/
def R66 : Rule :=
  { id := "R66", tag := "label", level := "AAA",
    regex := reTag "label" true,
    message := "Label text does not match accessible name",
    validate := fun tag _ =>
      .ok (jsIncludes tag "aria-label" && jsIncludes tag ">" &&
           !jsIncludes tag "for="),
    recommendation := "Ensure the visible label matches the accessible name (e.g., aria-label or aria-labelledby)." }

/-- Catalog rule R67 (`html`, level A). -/
def R67 : Rule :=
  { id := "R67", tag := "html", level := "A",
    regex := reTag "html" true,
    message := "Missing or incorrect lang attribute on <html>",
    validate := fun tag _ =>
      .ok (!jsIncludes tag "lang=" || jsIncludes tag "lang=\"\"" ||
           jsIncludes tag "lang='xx'"),
    recommendation := "Add a valid lang attribute to <html> (e.g., lang='en', lang='es')." }

/-- The accented-letter class test of rule R68's predicate. -/
def reAccents : JsRegex :=
  { pat := pcls "áéíóúüàèìòùâêîôûäëïöüñçßæœ", ci := true }

/-- Catalog rule R68 (`span|p`, level A): its pattern carries a negative
lookahead and a backreference. -/
def R68 : Rule :=
  { id := "R68", tag := "span|p", level := "A",
    regex := { pat := pseq [pchr '<', .grp 1 (palt [plit "span", plit "p"]),
                            .nla (pseq [pattrs, plit "lang="]), pattrs, pchr '>',
                            pstarL pdot, plit "</", .bref 1, pchr '>'],
               ci := true },
    message := "Foreign language content missing lang attribute",
    validate := fun tag _ =>
      .ok (regexTest reAccents tag && !jsIncludes tag "lang="),
    recommendation := "Use the lang attribute to identify the language of foreign phrases or sections." }

/-- Catalog rule R69 (`abbr`, level A). -/
def R69 : Rule :=
  { id := "R69", tag := "abbr", level := "A",
    regex := reTag "abbr" true,
    message := "<abbr> missing title attribute",
    validate := fun tag _ => .ok (!jsIncludes tag "title="),
    recommendation := "Add a title attribute to <abbr> elements to provide the expanded form of the abbreviation." }

/-- Catalog rule R70 (`input|a|button`, level A). -/
def R70 : Rule :=
  { id := "R70", tag := "input|a|button", level := "A",
    regex := { pat := pseq [pchr '<',
                            .grp 1 (palt [plit "input", plit "a", plit "button"]),
                            pattrs, plit "onfocus=", pquote, pstar (pncls "\"'"),
                            .grp 2 (palt [plit "location", plit "redirect"]),
                            pstar (pncls "\"'"), pquote, pattrs, pchr '>'],
               ci := true },
    message := "Element changes context on focus",
    validate := fun tag _ =>
      .ok (jsIncludes tag "onfocus" &&
           (jsIncludes tag "location" || jsIncludes tag "redirect")),
    recommendation := "Avoid using onfocus events to trigger context changes like redirections. Require explicit user action instead." }

/-- Catalog rule R71 (`select|input|textarea`, level A). -/
def R71 : Rule :=
  { id := "R71", tag := "select|input|textarea", level := "A",
    regex := { pat := pseq [pchr '<',
                            .grp 1 (palt [plit "select", plit "input", plit "textarea"]),
                            pattrs, plit "onchange=", pquote, pstar (pncls "\"'"),
                            .grp 2 (palt [plit "submit", plit "location", plit "redirect"]),
                            pstar (pncls "\"'"), pquote, pattrs, pchr '>'],
               ci := true },
    message := "Element changes context automatically on input",
    validate := fun tag _ =>
      .ok (jsIncludes tag "onchange" &&
           (jsIncludes tag "submit" || jsIncludes tag "location" ||
            jsIncludes tag "redirect")),
    recommendation := "Require a confirmation action (e.g., clicking a button) before applying input-based context changes." }

/-- Catalog rule R72 (`nav|header|footer|a`, level A): the predicate is the
always-false placeholder of the source (cross-page comparison is
unimplemented). -/
def R72 : Rule :=
  { id := "R72", tag := "nav|header|footer|a", level := "A",
    regex := reAltTag [plit "nav", plit "header", plit "footer", plit "a"] true,
    message := "Navigation structure should be consistent",
    validate := fun _ _ => .ok false,
    recommendation := "Ensure that repeated navigational elements maintain order, labeling, and structure across all pages." }

/-- The global test `/submit/gi` counted by rule R73's predicate. -/
def reSubmit : JsRegex := { pat := plit "submit", ci := true }

/-- Catalog rule R73 (`button|label|input|a`, level AA). -/
def R73 : Rule :=
  { id := "R73", tag := "button|label|input|a", level := "AA",
    regex := reAltTag [plit "button", plit "label", plit "input", plit "a"] true,
    message := "Inconsistent labeling for same functionality",
    validate := fun tag doc =>
      .ok (jsIncludes tag "submit" && Nat.blt 1 (regexCount reSubmit doc) &&
           !jsIncludes tag "aria-label"),
    recommendation := "Ensure consistent visible text and accessible name (aria-label) for elements with the same function across pages." }

/-- The test `/(error|invalid|aria-describedby)/i` of rule R74's predicate. -/
def reErrHints : JsRegex :=
  { pat := .grp 1 (palt [plit "error", plit "invalid", plit "aria-describedby"]),
    ci := true }

/-- Catalog rule R74 (`input|label|select|textarea`, level AA). -/
def R74 : Rule :=
  { id := "R74", tag := "input|label|select|textarea", level := "AA",
    regex := reAltTag [plit "input", plit "label", plit "select", plit "textarea"] true,
    message := "Missing or unclear error handling for form field",
    validate := fun tag doc =>
      .ok ((jsIncludes tag "required" || jsIncludes tag "aria-required") &&
           !regexTest reErrHints doc),
    recommendation := "Include specific error messages and associate them with form fields using aria-describedby or inline hints." }

/-- Catalog rule R75 (`label`, level AA): pattern without the `i` flag. -/
def R75 : Rule :=
  { id := "R75", tag := "label", level := "AA",
    regex := reTag "label" false,
    message := "Label missing field association or clear instruction",
    validate := fun tag doc =>
      .ok (!jsIncludes tag "for=" && !jsIncludes tag "aria-label" &&
           !jsIncludes tag "aria-labelledby" && !jsIncludes tag "id=" &&
           !jsIncludes doc "instructions"),
    recommendation := "Use the 'for' attribute or aria-label/aria-labelledby to associate the label with a field, and include helpful instructions." }

/-- The test `/\baria-describedby\s*=\s*["'](?!["'])[^"'\s>]+["']/` of rule
R76's predicate. -/
def reAriaDescribedby : JsRegex :=
  { pat := pseq [.wordB, plit "aria-describedby", pstar pws, pchr '=', pstar pws,
                 pquote, .nla pquote,
                 pplus (.ch (.cls true [.ch '"', .ch '\'', .ws, .ch '>'])),
                 pquote] }

/-- Catalog rule R76 (`form|fieldset`, level A). -/
def R76 : Rule :=
  { id := "R76", tag := "form|fieldset", level := "A",
    regex := { pat := pseq [pchr '<', .grp 1 (palt [plit "form", plit "fieldset"]),
                            .grp 2 (pstar (pseq [pplus pws, pattrs])), pchr '>'],
               ci := true },
    message := "Form or fieldset may need explicit instructions if its purpose or required input is not obvious from individual control labels (and the fieldset's legend, if applicable). Consider using aria-describedby to link to instructions. [WCAG 3.3.2]",
    validate := fun tagString _ =>
      let attributesString :=
        jsToLower (jsSubstring tagString (jsIndexOf tagString " ")
          (jsLastIndexOf tagString ">"))
      if regexTest reAriaDescribedby attributesString then .ok false
      else .ok true,
    recommendation := "If a form or fieldset is complex, contains non-obvious fields, or requires specific input formats not clear from individual control labels (and the fieldset's legend, if applicable), provide clear overall instructions. A robust method is to use the 'aria-describedby' attribute on the <form> or <fieldset> tag to programmatically link it to a text element containing these instructions. Alternatively, ensure visible instructional text is placed directly before or at the beginning of the form/fieldset. For <fieldset>, its <legend> should clearly describe the group. Manually verify that instructions (if needed) are adequate and clearly associated with the form/fieldset. [WCAG 3.3.2, G184]" }

/-- Catalog rule R77 (`input|select|textarea`, level AA). -/
def R77 : Rule :=
  { id := "R77", tag := "input|select|textarea", level := "AA",
    regex := reAltTag [plit "input", plit "select", plit "textarea"] true,
    message := "Form control lacks descriptive label",
    validate := fun tag _ =>
      .ok (jsIncludes tag "placeholder" && !jsIncludes tag "aria-describedby" &&
           !jsIncludes tag "label" && !jsIncludes tag "aria-label"),
    recommendation := "Use aria-describedby or an associated label to provide clear information about what is expected from the user." }

/-- Catalog rule R78 (`fieldset`, level AA). -/
def R78 : Rule :=
  { id := "R78", tag := "fieldset", level := "AA",
    regex := reTag "fieldset" false,
    message := "Missing <legend> for related form controls",
    validate := fun _ doc => .ok (!jsIncludes doc "<legend"),
    recommendation := "Use a <legend> inside <fieldset> to describe the grouped form controls." }

/-- The test `/(suggestion|hint|try again|did you mean)/i` of rule R79's
predicate. -/
def reSuggestion : JsRegex :=
  { pat := .grp 1 (palt [plit "suggestion", plit "hint", plit "try again",
                         plit "did you mean"]),
    ci := true }

/-- Catalog rule R79 (`form|input|select|textarea`, level A). -/
def R79 : Rule :=
  { id := "R79", tag := "form|input|select|textarea", level := "A",
    regex := reAltTag [plit "form", plit "input", plit "select", plit "textarea"] true,
    message := "Missing error suggestions or guidance",
    validate := fun _ doc =>
      .ok (jsIncludes doc "error" && !regexTest reSuggestion doc),
    recommendation := "Include contextual suggestions or hints near fields with errors to help users understand and fix issues." }

/-- The duplicate-attribute test
`/(id|class|name|type)=["'][^"']*["'].*\1=["']/` of rule R80's predicate
(with its backreference). -/
def reDupAttr : JsRegex :=
  { pat := pseq [.grp 1 (palt [plit "id", plit "class", plit "name", plit "type"]),
                 pchr '=', pquote, pstar (pncls "\"'"), pquote, pstar pdot,
                 .bref 1, pchr '=', pquote] }

/-- Catalog rule R80 (`html|body|button|form|input|script|select|textarea`,
level AA). -/
def R80 : Rule :=
  { id := "R80", tag := "html|body|button|form|input|script|select|textarea",
    level := "AA",
    regex := reAltTag [plit "html", plit "body", plit "button", plit "form",
                       plit "input", plit "script", plit "select", plit "textarea"] true,
    message := "Malformed or improperly structured HTML tag",
    validate := fun tag _ =>
      .ok (regexTest reDupAttr tag || jsIncludes tag "<div><div>" ||
           (jsIncludes tag "<input" && jsIncludes tag "</input>") ||
           (jsStartsWith tag "<" && !jsEndsWith tag ">")),
    recommendation := "Check for repeated attributes, invalid nesting, or improper tag syntax. Use a validator to ensure the HTML is well-formed." }

/-- The test `/aria-labelledby\s*=\s*["'](?!["'])[^"'\s>]+["']/` of rule
R81's predicate. -/
def reAriaLabelledbyFilled : JsRegex :=
  { pat := pseq [plit "aria-labelledby", pstar pws, pchr '=', pstar pws, pquote,
                 .nla pquote,
                 pplus (.ch (.cls true [.ch '"', .ch '\'', .ws, .ch '>'])),
                 pquote] }

/-- The test `/title\s*=\s*["'](?!["'])[^"']+["']/` of rule R81's
predicate. -/
def reTitleFilled : JsRegex :=
  { pat := pseq [plit "title", pstar pws, pchr '=', pstar pws, pquote,
                 .nla pquote, pplus (pncls "\"'"), pquote] }

/-- The text-content test `/>[^<>\s][^<>]*?</` of rule R81's predicate. -/
def reTextContent : JsRegex :=
  { pat := pseq [pchr '>', .ch (.cls true [.ch '<', .ch '>', .ws]),
                 pstarL (pncls "<>"), pchr '<'] }

/-- The test `/type\s*=\s*["'](button|submit|reset)["']/i` of rule R81's
predicate. -/
def reTypeBSR : JsRegex :=
  { pat := pseq [plit "type", pstar pws, pchr '=', pstar pws, pquote,
                 .grp 1 (palt [plit "button", plit "submit", plit "reset"]),
                 pquote],
    ci := true }

/-- The test `/type\s*=\s*["']image["']/i` of rule R81's predicate. -/
def reTypeImage : JsRegex :=
  { pat := pseq [plit "type", pstar pws, pchr '=', pstar pws, pquote,
                 plit "image", pquote],
    ci := true }

/-- The test `/value\s*=\s*["'](?!["'])[^"']+["']/` of rule R81's
predicate. -/
def reValueFilled : JsRegex :=
  { pat := pseq [plit "value", pstar pws, pchr '=', pstar pws, pquote,
                 .nla pquote, pplus (pncls "\"'"), pquote] }

/-- The test `/alt\s*=\s*["'](?!["'])[^"']+["']/` of rule R81's predicate. -/
def reAltFilled : JsRegex :=
  { pat := pseq [plit "alt", pstar pws, pchr '=', pstar pws, pquote,
                 .nla pquote, pplus (pncls "\"'"), pquote] }

/-- Catalog rule R81 (`div|span|a|button|input|img|select|textarea`,
level A). -/
def R81 : Rule :=
  { id := "R81", tag := "div|span|a|button|input|img|select|textarea", level := "A",
    regex := { pat := pseq [pchr '<',
                            .grp 1 (palt [plit "div", plit "span", plit "a",
                                          plit "button", plit "input", plit "img",
                                          plit "select", plit "textarea"]),
                            pws, pattrs, .wordB, plit "role", pstar pws, pchr '=',
                            pstar pws, pquote, pwrd, pstar (pncls "\"'"), pquote,
                            pattrs, pchr '>'],
               ci := true },
    message := "Element with an ARIA role may require an accessible name (e.g., via aria-label, aria-labelledby, or appropriate text content). [WCAG 4.1.2]",
    validate := fun tagString _ =>
      let lowerTag := jsToLower tagString
      let hasAriaLabel := regexTest reAriaLabelFilled lowerTag
      let hasAriaLabelledby := regexTest reAriaLabelledbyFilled lowerTag
      let hasTitle := regexTest reTitleFilled lowerTag
      let hasTextContent := regexTest reTextContent tagString
      if !hasAriaLabel && !hasAriaLabelledby && !hasTitle && !hasTextContent then
        if jsStartsWith lowerTag "<img" && regexTest reAltFilled lowerTag then
          .ok false
        else if jsStartsWith lowerTag "<input" &&
            ((regexTest reTypeBSR lowerTag && regexTest reValueFilled lowerTag) ||
             (regexTest reTypeImage lowerTag && regexTest reAltFilled lowerTag)) then
          .ok false
        else .ok true
      else .ok false,
    recommendation := "Ensure that elements with explicit ARIA roles have an accessible name. This can often be provided via their text content, or attributes like 'aria-label', 'aria-labelledby', or 'title'. For standard HTML interactive elements, their accessible name is typically derived from associated labels, text content, or specific attributes like 'alt' for images. [WCAG 4.1.2, 1.1.1, 1.3.1, 2.4.6]" }

/-- The test `/aria-live\s*=\s*["'](polite|assertive|off)["']/` of rule R82's
predicate. -/
def reAriaLive : JsRegex :=
  { pat := pseq [plit "aria-live", pstar pws, pchr '=', pstar pws, pquote,
                 .grp 1 (palt [plit "polite", plit "assertive", plit "off"]),
                 pquote] }

/-- The test `/role\s*=\s*["'](status|alert)["']/` of rule R82's
predicate. -/
def reRoleStatusAlert : JsRegex :=
  { pat := pseq [plit "role", pstar pws, pchr '=', pstar pws, pquote,
                 .grp 1 (palt [plit "status", plit "alert"]), pquote] }

/-- Catalog rule R82 (`div|output|p|span`, level AA): the last catalog
rule. -/
def R82 : Rule :=
  { id := "R82", tag := "div|output|p|span", level := "AA",
    regex := reAltTag [plit "div", plit "output", plit "p", plit "span"] true,
    message := "Review for potential need of ARIA for dynamic status messages (Manual Check Usually Required).",
    validate := fun tagString _ =>
      let lowerTagString := jsToLower tagString
      if jsStartsWith lowerTagString "<output" then
        let hasAriaLive := regexTest reAriaLive lowerTagString
        let hasRoleStatusOrAlert := regexTest reRoleStatusAlert lowerTagString
        if !hasAriaLive && !hasRoleStatusOrAlert then .ok true
        else .ok false
      else .ok false,
    recommendation := "If an element's content is updated dynamically to convey status messages or important information to the user without a page reload (e.g., 'Search results loaded', 'Item added to cart', error notifications), the container for these messages should use appropriate ARIA attributes like aria-live ('polite' or 'assertive') or a specific role like 'status' (for advisory information) or 'alert' (for urgent messages) to ensure assistive technologies announce these changes. The <output> tag is often used for such purposes and should also be considered for these ARIA attributes if its updates need to be announced. Manually identify and mark up these dynamic regions. [WCAG 4.1.3]" }

/-- The canonical rule catalog array of the final `rules.js` (part_003), as
the source's sparse array literal builds it: the 82 defined rules in order
and one hole, the elided element between R48 and R49 (index 48). -/
def rulesCatalog : List (Option Rule) :=
  [some R1, some R2, some R3, some R4, some R5, some R6, some R7, some R8,
   some R9, some R10, some R11, some R12, some R13, some R14, some R15,
   some R16, some R17, some R18, some R19, some R20, some R21, some R22,
   some R23, some R24, some R25, some R26, some R27, some R28, some R29,
   some R30, some R31, some R32, some R33, some R34, some R35, some R36,
   some R37, some R38, some R39, some R40, some R41, some R42, some R43,
   some R44, some R45, some R46, some R47, some R48, none, some R49,
   some R50, some R51, some R52, some R53, some R54, some R55, some R56,
   some R57, some R58, some R59, some R60, some R61, some R62, some R63,
   some R64, some R65, some R66, some R67, some R68, some R69, some R70,
   some R71, some R72, some R73, some R74, some R75, some R76, some R77,
   some R78, some R79, some R80, some R81, some R82]

/-- The value of one hexadecimal digit character. -/
def hexDigitVal (c : Char) : Option Nat :=
  if c.isDigit then some (c.toNat - '0'.toNat)
  else if 'A' ≤ c && c ≤ 'F' then some (10 + (c.toNat - 'A'.toNat))
  else if 'a' ≤ c && c ≤ 'f' then some (10 + (c.toNat - 'a'.toNat))
  else none

/-- `parseInt(s, 16)`: skip leading whitespace, take an optional sign, strip
an optional `0x` prefix, then read the maximal run of hexadecimal digits;
the result is `NaN` (here `none`) when that run is empty. -/
def parseIntHex (s : String) : Option Int :=
  let cs0 := s.data.dropWhile isJsWs
  let sgn : Int := if cs0.headD ' ' = '-' then -1 else 1
  let cs1 := if cs0.headD ' ' = '-' || cs0.headD ' ' = '+' then cs0.tail else cs0
  let cs2 := match cs1 with
    | '0' :: 'x' :: t => t
    | '0' :: 'X' :: t => t
    | _ => cs1
  let ds := cs2.takeWhile (fun c => (hexDigitVal c).isSome)
  if ds.isEmpty then none
  else some (sgn * Int.ofNat (ds.foldl (fun a c => 16 * a + (hexDigitVal c).getD 0) 0))

/-- `hexToRgb(hex)` of `extension.js`: the channels default to zero; for a
seven-character string each channel is `parseInt` of its two hex characters
(`NaN`, here `none`, when the pair does not parse). -/
def hexToRgb (hex : String) : Option Int × Option Int × Option Int :=
  if hex.length = 7 then
    (parseIntHex (String.mk [hex.data.getD 1 ' ', hex.data.getD 2 ' ']),
     parseIntHex (String.mk [hex.data.getD 3 ' ', hex.data.getD 4 ' ']),
     parseIntHex (String.mk [hex.data.getD 5 ' ', hex.data.getD 6 ' ']))
  else (some 0, some 0, some 0)

/-- The per-channel body of `luminance`: `c = v/255`, then `c/12.92` when
`c ≤ 0.03928` and `((c + 0.055)/1.055)^2.4` otherwise. -/
noncomputable def linearChannel (v : Int) : ℝ :=
  let c : ℝ := (v : ℝ) / 255
  if c ≤ 0.03928 then c / 12.92 else Real.rpow ((c + 0.055) / 1.055) 2.4

/-- One channel of `luminance` with `NaN` tracked: a `NaN` channel fails the
`≤` comparison and `Math.pow` of `NaN` is `NaN`, so `none` stays `none`. -/
noncomputable def srgbChannel (n : Option Int) : Option ℝ :=
  match n with
  | none => none
  | some v => some (linearChannel v)

/-- `luminance(rgb)` of `extension.js`: the weighted channel sum, `NaN` as
soon as one channel is `NaN`. -/
noncomputable def luminance (rgb : Option Int × Option Int × Option Int) : Option ℝ :=
  match srgbChannel rgb.1, srgbChannel rgb.2.1, srgbChannel rgb.2.2 with
  | some r, some g, some b => some (0.2126 * r + 0.7152 * g + 0.0722 * b)
  | _, _, _ => none

/-- The luminance formula of the specification, over parsed integer
channels: the comparison target for `luminance`. -/
noncomputable def relativeLuminance (r g b : Int) : ℝ :=
  0.2126 * linearChannel r + 0.7152 * linearChannel g + 0.0722 * linearChannel b

/-- `contrastRatio(color1, color2)` of `extension.js`: the two luminances are
ordered by the JavaScript `>` (false on `NaN`), and the ratio
`(L1 + 0.05)/(L2 + 0.05)` is `NaN` (here `none`) as soon as either luminance
is `NaN`. -/
noncomputable def contrastRatio (color1 color2 : String) : Option ℝ :=
  let luminance1 := luminance (hexToRgb color1)
  let luminance2 := luminance (hexToRgb color2)
  match luminance1, luminance2 with
  | some a, some b =>
      let p := if a > b then (a, b) else (b, a)
      some ((p.1 + 0.05) / (p.2 + 0.05))
  | _, _ => none

/-- The anchored test `/^#[0-9a-fA-F]{6}$/.test(color)`: the whole string is
`#` followed by exactly six hexadecimal digits. -/
def isHexColor6 (s : String) : Bool :=
  s.length = 7 && s.data.headD ' ' = '#' &&
    s.data.tail.all (fun c => (hexDigitVal c).isSome)

/-- `isValidContrast(color)` of `extension.js`: `true` (skip) for anything
that fails the anchored hex test; otherwise the ratio against the white
background must reach 4.5 (`NaN >= 4.5` is false in JavaScript, hence the
`none` branch). -/
noncomputable def isValidContrast (color : String) : Bool :=
  if isHexColor6 color then
    match contrastRatio color "#FFFFFF" with
    | some contrast => decide (contrast ≥ 4.5)
    | none => false
  else true

/-- `s.match(re)` for a non-global expression: the first match with its
captures. -/
def regexFirst (re : JsRegex) (s : String) : Option RMatch :=
  let cfg := regexCfg re s
  match findFrom re cfg (cfg.len + 1) 0 with
  | some (idx, e, caps) => some { index := idx, str := sliceStr cfg idx e, caps := caps }
  | none => none

/-- Capture group `i` of a match over subject `s` (the empty string when the
group did not participate). -/
def capStr (s : String) (m : RMatch) (i : Nat) : String :=
  match capGet m.caps i with
  | some p => String.mk ((s.data.drop p.1).take (p.2 - p.1))
  | none => ""

/-- The extraction `/role="([^"]*)"/` of `isValidARIA`. -/
def reRoleCapture : JsRegex :=
  { pat := pseq [plit "role=\"", .grp 1 (pstar (pncls "\"")), pchr '"'] }

/-- The valid-role list of `isValidARIA` in `extension.js`. -/
def validRoles : List String :=
  ["button", "navigation", "link", "dialog", "main", "alert",
   "form", "application", "checkbox", "radio", "slider", "textbox"]

/-- `isValidARIA(ariaRole)` of `extension.js`: accept a listed role, else
accept when one of the three ARIA properties occurs in the text, else
reject. -/
def isValidARIA (ariaRole : String) : Bool :=
  let hasProp := jsIncludes ariaRole "aria-labelledby" ||
    jsIncludes ariaRole "aria-describedby" || jsIncludes ariaRole "aria-hidden"
  match regexFirst reRoleCapture ariaRole with
  | some m =>
      if validRoles.contains (jsToLower (capStr ariaRole m 1)) then true else hasProp
  | none => hasProp

/-- One issue object of the legacy `checkSemanticIssues` in `extension.js`:
message and span only (these issues carry no recommendation field). -/
structure LegacyIssue where
  message : String
  startLine : Nat
  startChar : Nat
  endLine : Nat
  endChar : Nat
  deriving DecidableEq, Repr

/-- Build a legacy issue whose span is `positionAt` of the match's offset
range. -/
def legacyIssueAt (doc msg : String) (idx len : Nat) : LegacyIssue :=
  let s := positionAt doc idx
  let e := positionAt doc (idx + len)
  { message := msg, startLine := s.1, startChar := s.2, endLine := e.1, endChar := e.2 }

/-- Legacy check 1.1.1: `/<img[^>]*>/g`, flag tags without `alt="`. -/
def legacyImgIssues (doc : String) : List LegacyIssue :=
  (execAll (reTag "img" false) doc).filterMap (fun m =>
    if !jsIncludes m.str "alt=\"" then
      some (legacyIssueAt doc
        "Image without alt text: Provide alternative text for all images."
        m.index m.str.length)
    else none)

/-- Legacy check 1.2.1: `/<(audio|video)[^>]*>/g`, the condition looks at the
whole document for the word `controls`. -/
def legacyMediaIssues (doc : String) : List LegacyIssue :=
  (execAll (reAltTag [plit "audio", plit "video"] false) doc).filterMap (fun m =>
    if !jsIncludes doc "controls" then
      some (legacyIssueAt doc
        "Audio or video without controls: Provide controls for media elements."
        m.index m.str.length)
    else none)

/-- Legacy check 1.3.1: `/<h[1-6][^>]*>/g`, pushed at the zero span. -/
def legacyHeadingIssues (doc : String) : List LegacyIssue :=
  (execAll reH16 doc).filterMap (fun m =>
    if jsIncludes m.str "<h1>" && !jsIncludes doc "<h2>" then
      some { message := "Missing hierarchical header structure: Ensure proper use of headers from h1 to h6.",
             startLine := 0, startChar := 0, endLine := 0, endChar := 0 }
    else none)

/-- The matcher `/color:\s*#[0-9a-fA-F]{6}/g` of the legacy low-contrast
check, with its literal head folded over the rest of the pattern. -/
def reColorDecl : JsRegex :=
  { pat := ("color:".data.map pchr).foldr .seq
      (pseq [pstar pws, pchr '#', .rep phex 6 (some 6) false]) }

/-- Legacy check 1.4.3: every match feeds `isValidContrast`; a finding needs
`isValidContrast` to return false. -/
noncomputable def legacyContrastIssues (doc : String) : List LegacyIssue :=
  (execAll reColorDecl doc).filterMap (fun m =>
    if !isValidContrast m.str then
      some (legacyIssueAt doc
        ("Low contrast color detected: " ++ m.str ++ ". Ensure a contrast ratio of at least 4.5:1.")
        m.index m.str.length)
    else none)

/-- Legacy check 2.1.1: `/<a[^>]*href="#"/g`. -/
def legacyTabindexIssues (doc : String) : List LegacyIssue :=
  (execAll { pat := pseq [plit "<a", pattrs, plit "href=\"#\""] } doc).filterMap (fun m =>
    if !jsIncludes m.str "tabindex=\"0\"" then
      some (legacyIssueAt doc
        "Link without accessible keyboard navigation (consider adding tabindex)."
        m.index m.str.length)
    else none)

/-- Legacy check 2.2.1: `/<audio[^>]*>/g` against the whole document's
`controls`. -/
def legacyAudioIssues (doc : String) : List LegacyIssue :=
  (execAll (reTag "audio" false) doc).filterMap (fun m =>
    if !jsIncludes doc "controls" then
      some (legacyIssueAt doc
        "Media element without controls: Ensure media elements allow user interaction (e.g., pause, stop, adjust time)."
        m.index m.str.length)
    else none)

/-- Legacy check 2.3.1: `/<blink[^>]*>/g`, unconditional. -/
def legacyBlinkIssues (doc : String) : List LegacyIssue :=
  (execAll (reTag "blink" false) doc).map (fun m =>
    legacyIssueAt doc
      "Flashing content detected: Avoid using <blink> or <marquee> tags to prevent seizures."
      m.index m.str.length)

/-- Legacy check 2.4.4: `/<a[^>]*href="[^"]*">/g`. -/
def legacyLinkTextIssues (doc : String) : List LegacyIssue :=
  (execAll { pat := pseq [plit "<a", pattrs, plit "href=\"", pstar (pncls "\""),
                          plit "\">"] } doc).filterMap (fun m =>
    if jsIncludes m.str "href=\"#\"" || jsTrim m.str = "<a></a>" then
      some (legacyIssueAt doc
        "Empty or ambiguous link text: Provide clear and descriptive text for all links."
        m.index m.str.length)
    else none)

/-- Legacy checks 2.5.3 and 3.3.1 (the source repeats this block twice):
`/<input[^>]*>/g`; `inputTag.id` on a string is `undefined`, so the label
the condition looks for is literally `<label for="undefined">`. -/
def legacyInputLabelIssues (doc : String) : List LegacyIssue :=
  (execAll (reTag "input" false) doc).filterMap (fun m =>
    if !jsIncludes doc "<label for=\"undefined\">" then
      some (legacyIssueAt doc
        "Form input without label: Ensure all form fields have associated labels."
        m.index m.str.length)
    else none)

/-- Legacy check 3.1.1: one issue at the zero span when
`<html lang="` is absent. -/
def legacyHtmlLangIssues (doc : String) : List LegacyIssue :=
  if !jsIncludes doc "<html lang=\"" then
    [{ message := "Missing language attribute in the <html> tag: Add the 'lang' attribute to specify the language.",
       startLine := 0, startChar := 0, endLine := 0, endChar := 0 }]
  else []

/-- Legacy check 3.2.1: `/<form[^>]*>/g` with `onSubmit`, at the zero
span. -/
def legacyFormIssues (doc : String) : List LegacyIssue :=
  (execAll (reTag "form" false) doc).filterMap (fun m =>
    if jsIncludes m.str "onSubmit" then
      some { message := "Form with onSubmit handler: Ensure that forms behave predictably and submit actions are clear.",
             startLine := 0, startChar := 0, endLine := 0, endChar := 0 }
    else none)

/-- Legacy check 4.1.2: `/role="[^"]*"/g` through `isValidARIA`. -/
def legacyAriaIssues (doc : String) : List LegacyIssue :=
  (execAll { pat := pseq [plit "role=\"", pstar (pncls "\""), pchr '"'] } doc).filterMap
    (fun m =>
      if !isValidARIA m.str then
        some (legacyIssueAt doc
          "Incorrect ARIA usage: Ensure valid ARIA roles are used."
          m.index m.str.length)
      else none)

/-- The `issues` array of the legacy `checkSemanticIssues` after its own
thirteen blocks, in push order (the input-label block appears twice in the
source). -/
noncomputable def legacyOwnIssues (doc : String) : List LegacyIssue :=
  legacyImgIssues doc ++ legacyMediaIssues doc ++ legacyHeadingIssues doc ++
  legacyContrastIssues doc ++ legacyTabindexIssues doc ++ legacyAudioIssues doc ++
  legacyBlinkIssues doc ++ legacyLinkTextIssues doc ++ legacyInputLabelIssues doc ++
  legacyHtmlLangIssues doc ++ legacyFormIssues doc ++ legacyInputLabelIssues doc ++
  legacyAriaIssues doc

/-- One object `detectTextAlternatives` pushes: a message and the match
offset. -/
structure AltIssue where
  message : String
  start : Nat
  deriving DecidableEq, Repr

/-- One detection loop of `detectTextAlternatives`: the matches whose
condition holds, in order, as pushed objects. -/
def altIssuesOf (re : JsRegex) (doc : String) (cond : RMatch → Bool) (msg : String) :
    List AltIssue :=
  (execAll re doc).filterMap (fun m =>
    if cond m then some { message := msg, start := m.index } else none)

/-- The link pattern `/<a[^>]*href=[^>]*>(.*?)<\/a>/g` of
`detectTextAlternatives`. -/
def reAltLink : JsRegex :=
  { pat := pseq [plit "<a", pattrs, plit "href=", pattrs, pchr '>',
                 .grp 1 (pstarL pdot), plit "</a>"] }

/-- The anchored test `/^<i|^<span/` applied to the link's first capture. -/
def reIconStart : JsRegex :=
  { pat := palt [pseq [.bos, plit "<i"], pseq [.bos, plit "<span"]] }

/-- The content patterns `/<caption[^>]*>(.*?)<\/caption>/g` and kin. -/
def reContentTag (t : String) : JsRegex :=
  { pat := pseq [plit ("<" ++ t), pattrs, pchr '>', .grp 1 (pstarL pdot),
                 plit ("</" ++ t ++ ">")] }

/-- Every push `detectTextAlternatives(documentText, issues)` attempts, in
source order: its thirty-one detection loops over the document text. -/
def detectTextAlternativesPushes (documentText : String) : List AltIssue :=
  altIssuesOf (reTag "img" false) documentText
    (fun m => !jsIncludes m.str "alt=\"") "Imagen sin alt" ++
  altIssuesOf reAltLink documentText
    (fun m => regexTest reIconStart (capStr documentText m 1) &&
      !jsIncludes m.str "aria-label") "Enlace con icono sin aria-label" ++
  altIssuesOf (reTag "button" false) documentText
    (fun m => !jsIncludes m.str "aria-label") "Botón sin aria-label" ++
  altIssuesOf { pat := pseq [plit "<input", pattrs, plit "type=\"image\"",
                             pattrs, pchr '>'] } documentText
    (fun m => !jsIncludes m.str "alt=\"") "Input imagen sin alt" ++
  altIssuesOf (reTag "svg" false) documentText
    (fun m => !jsIncludes m.str "aria-label" && !jsIncludes m.str "aria-hidden")
    "SVG sin aria-label o aria-hidden" ++
  altIssuesOf (reTag "table" false) documentText
    (fun _ => !jsIncludes documentText "<caption>") "Tabla sin caption" ++
  altIssuesOf (reTag "form" false) documentText
    (fun _ => !jsIncludes documentText "<label") "Formulario sin etiquetas" ++
  altIssuesOf (reTag "select" false) documentText
    (fun _ => !jsIncludes documentText "<label") "Select sin label" ++
  altIssuesOf (reTag "textarea" false) documentText
    (fun _ => !jsIncludes documentText "<label") "Textarea sin label" ++
  altIssuesOf (reTag "figure" false) documentText
    (fun _ => !jsIncludes documentText "<figcaption>") "Figura sin figcaption" ++
  altIssuesOf (reTag "picture" false) documentText
    (fun _ => !jsIncludes documentText "<img" || !jsIncludes documentText "alt=")
    "Picture sin alt en img" ++
  altIssuesOf (reTag "object" false) documentText
    (fun _ => !jsIncludes documentText "<p>") "Objeto sin texto alternativo" ++
  altIssuesOf (reTag "video" false) documentText
    (fun _ => !jsIncludes documentText "<track") "Video sin subtítulos" ++
  altIssuesOf (reTag "audio" false) documentText
    (fun m => !jsIncludes m.str "controls") "Audio sin controles" ++
  altIssuesOf (reTag "iframe" false) documentText
    (fun m => !jsIncludes m.str "title=") "Iframe sin título" ++
  altIssuesOf (reTag "area" false) documentText
    (fun m => !jsIncludes m.str "alt=") "Área sin alt" ++
  altIssuesOf (reTag "canvas" false) documentText
    (fun _ => !jsIncludes documentText "<p>") "Canvas sin texto alternativo" ++
  altIssuesOf (reTag "map" false) documentText
    (fun _ => !jsIncludes documentText "<area" || !jsIncludes documentText "alt=")
    "Mapa sin alt en áreas" ++
  altIssuesOf (reTag "embed" false) documentText
    (fun _ => !jsIncludes documentText "<p>") "Embed sin texto alternativo" ++
  altIssuesOf (reTag "track" false) documentText
    (fun m => !jsIncludes m.str "kind=\"captions\"") "Pista de subtítulos faltante" ++
  altIssuesOf (reTag "source" false) documentText
    (fun _ => !jsIncludes documentText "<track") "Fuente sin subtítulos" ++
  altIssuesOf (reTag "applet" false) documentText
    (fun _ => !jsIncludes documentText "<p>") "Applet sin texto alternativo" ++
  altIssuesOf (reTag "progress" false) documentText
    (fun m => !jsIncludes m.str "aria-label") "Progress sin aria-label" ++
  altIssuesOf (reTag "meter" false) documentText
    (fun m => !jsIncludes m.str "aria-label") "Meter sin aria-label" ++
  altIssuesOf (reTag "time" false) documentText
    (fun _ => true) "Elemento time sin contexto claro" ++
  altIssuesOf (reTag "abbr" false) documentText
    (fun m => !jsIncludes m.str "title=") "Abbr sin title" ++
  altIssuesOf (reTag "q" false) documentText
    (fun m => !jsIncludes m.str "cite=") "Cita sin atributo cite" ++
  altIssuesOf (reContentTag "caption") documentText
    (fun m => jsTrim (capStr documentText m 1) = "") "Caption sin descripción" ++
  altIssuesOf (reContentTag "legend") documentText
    (fun m => jsTrim (capStr documentText m 1) = "") "Legend sin texto" ++
  altIssuesOf (reContentTag "figcaption") documentText
    (fun m => jsTrim (capStr documentText m 1) = "") "Figcaption sin descripción" ++
  altIssuesOf (reTag "datalist" false) documentText
    (fun _ => true) "Datalist sin contexto"

/-- `detectTextAlternatives(documentText, document)` as the legacy entry
calls it: the second argument is the editor document, which has no `push`
method, so the first attempted push throws a `TypeError`; when no push is
attempted the body falls through, and the call evaluates to `undefined`
(the function has no return statement). -/
def detectTextAlternativesOnDocument (documentText : String) : Except JsError Unit :=
  if (detectTextAlternativesPushes documentText).isEmpty then .ok ()
  else .error (.typeError "issues.push is not a function")

/-- The legacy `checkSemanticIssues(documentText, document)` of
`extension.js`: its own blocks build `issues`; then
`detectTextAlternatives(documentText, document)` runs (throwing at its first
push), and on the no-push path the spread `issues.push(...altIssues)` of the
`undefined` result throws.  The collected issues are lost on every path. -/
noncomputable def checkSemanticIssuesLegacy (documentText : String) :
    Except JsError (List LegacyIssue) :=
  let _issues := legacyOwnIssues documentText
  match detectTextAlternativesOnDocument documentText with
  | .error e => .error e
  | .ok _ =>
      .error (.typeError "altIssues is not iterable (cannot read property Symbol(Symbol.iterator))")

/-- The position just after the first occurrence of `closer` at or after
`start` — or the end of the text when the closer never comes (the spec's
unterminated-construct rule). -/
def closeAfter (cs closer : List Char) (start : Nat) : Nat :=
  match firstInfixPos closer (cs.drop start) 0 with
  | some p => start + p + closer.length
  | none => cs.length

/-- Modelled from the spec: the removable regions of the Text Preprocessor
(no preprocessor exists under `src/`).  Scanning left to right: an HTML
comment `<!-- ... -->`, a `<script ... </script>` element or a
`<style ... </style>` element opens a region that runs to just after its
closing delimiter, or to the end of the document when unterminated. -/
def neutralRegionsGo (cs : List Char) : Nat → Nat → List (Nat × Nat)
  | 0, _ => []
  | fuel + 1, i =>
      if Nat.blt i cs.length then
        if "<!--".data.isPrefixOf (cs.drop i) then
          let e := closeAfter cs "-->".data (i + 4)
          (i, e) :: neutralRegionsGo cs fuel e
        else if "<script".data.isPrefixOf (cs.drop i) then
          let e := closeAfter cs "</script>".data (i + 7)
          (i, e) :: neutralRegionsGo cs fuel e
        else if "<style".data.isPrefixOf (cs.drop i) then
          let e := closeAfter cs "</style>".data (i + 6)
          (i, e) :: neutralRegionsGo cs fuel e
        else neutralRegionsGo cs fuel (i + 1)
      else []

/-- Modelled from the spec: the comment/script/style regions of a text. -/
def neutralRegions (text : String) : List (Nat × Nat) :=
  neutralRegionsGo text.data (text.data.length + 1) 0

/-- Whether a position lies in one of the regions. -/
def inNeutralRegion (rs : List (Nat × Nat)) (i : Nat) : Bool :=
  rs.any (fun r => r.1 ≤ i && Nat.blt i r.2)

/-- Map over a list with the index of each element. -/
def mapIdxFrom (f : Nat → Char → Char) : Nat → List Char → List Char
  | _, [] => []
  | i, c :: t => f i c :: mapIdxFrom f (i + 1) t

/-- Modelled from the spec: `preprocess(text)` of the Text Preprocessor,
which the repository does not implement under `src/`.  Every character of a
removed construct is replaced in place: newlines are kept, every other
character inside a region becomes the neutral filler, a space; characters
outside the regions are kept. -/
def preprocess (text : String) : String :=
  let rs := neutralRegions text
  String.mk (mapIdxFrom
    (fun i c => if c = '\n' then c else if inNeutralRegion rs i then ' ' else c)
    0 text.data)

/-- The scenario document of the specification: a bare image tag without an
`alt` attribute. -/
def imgDoc : String := "<img src=\"a.png\">"

/-- The same image tag wrapped in an HTML comment. -/
def imgCommentDoc : String := "<!-- <img src=\"a.png\"> -->"

/-- A document whose only tag is an `<abbr>` without a `title` attribute:
it drives a rule positioned after the catalog hole to produce a finding. -/
def abbrDoc : String := "<abbr>FBI</abbr>"

/-- A catalog rule whose predicate always throws: the probe for the
failure-isolation claim. -/
def ruleThrows : Rule :=
  { id := "RT", tag := "img", level := "A",
    regex := reTag "img" false,
    message := "Throwing rule",
    validate := fun _ _ => .error (.typeError "boom"),
    recommendation := "none" }

/-- The single issue the full catalog produces on `imgDoc`: rule R1 over the
whole tag. -/
def r1ImgIssue : JsIssue :=
  { message := "Image without alt attribute (R1)",
    recommendation := R1.recommendation,
    startLine := 0, startChar := 0, endLine := 0, endChar := 17 }

/-- The single issue the full catalog produces on `imgCommentDoc`: rule R1
over the commented-out tag. -/
def r1CommentIssue : JsIssue :=
  { message := "Image without alt attribute (R1)",
    recommendation := R1.recommendation,
    startLine := 0, startChar := 5, endLine := 0, endChar := 22 }

/-- A completed `exec` loop always leaves `lastIndex` at zero. -/
theorem execLoop_snd (re : JsRegex) (cfg : RCfg) :
    ∀ fuel start, (execLoop re cfg fuel start).2 = 0 := by
  intro fuel
  induction fuel with
  | zero => intro start; rfl
  | succ n ih =>
      intro start
      simp only [execLoop]
      split
      · rfl
      · split
        · rfl
        · simp [ih]

/-- `exec` searches forward: a found index is at or after the start. -/
theorem findFrom_ge (re : JsRegex) (cfg : RCfg) :
    ∀ fuel pos i e caps, findFrom re cfg fuel pos = some (i, e, caps) → pos ≤ i := by
  intro fuel
  induction fuel with
  | zero => intro pos i e caps h; exact absurd h (by simp [findFrom])
  | succ n ih =>
      intro pos i e caps h
      simp only [findFrom] at h
      split at h
      · exact absurd h (by simp)
      · split at h
        · rename_i e2 caps2 heq
          cases h
          exact le_refl _
        · exact le_trans (Nat.le_succ pos) (ih (pos + 1) i e caps h)

/-- A found match comes from `matchAt` at its index. -/
theorem findFrom_matchAt (re : JsRegex) (cfg : RCfg) :
    ∀ fuel pos i e caps, findFrom re cfg fuel pos = some (i, e, caps) →
      matchAt re cfg i = some (e, caps) := by
  intro fuel
  induction fuel with
  | zero => intro pos i e caps h; exact absurd h (by simp [findFrom])
  | succ n ih =>
      intro pos i e caps h
      simp only [findFrom] at h
      split at h
      · exact absurd h (by simp)
      · split at h
        · rename_i e2 caps2 heq
          cases h
          exact heq
        · exact ih (pos + 1) i e caps h

/-- Every match of the `exec` loop sits at or after the loop's start. -/
theorem execLoop_mem_ge (re : JsRegex) (cfg : RCfg) :
    ∀ fuel start m, m ∈ (execLoop re cfg fuel start).1 → start ≤ m.index := by
  intro fuel
  induction fuel with
  | zero => intro start m h; exact absurd h (by simp [execLoop])
  | succ n ih =>
      intro start m h
      simp only [execLoop] at h
      split at h
      · exact absurd h (by simp)
      · split at h
        · exact absurd h (by simp)
        · rename_i idx e caps heq
          simp only [List.mem_cons] at h
          rcases h with h | h
          · subst h
            exact findFrom_ge re cfg _ start idx e caps heq
          · have h1 := ih _ m h
            have h2 := findFrom_ge re cfg _ start idx e caps heq
            split at h1 <;> omega

/-- The matches of one `exec` loop have strictly increasing indices:
match-occurrence order. -/
theorem execLoop_chain (re : JsRegex) (cfg : RCfg) :
    ∀ fuel start,
      List.Chain' (fun a b => a.index < b.index) (execLoop re cfg fuel start).1 := by
  intro fuel
  induction fuel with
  | zero => intro start; simp [execLoop]
  | succ n ih =>
      intro start
      simp only [execLoop]
      split
      · simp
      · split
        · simp
        · rename_i idx e caps heq
          refine List.chain'_cons'.mpr ⟨?_, ih _⟩
          intro y hy
          have hmem : y ∈ (execLoop re cfg n (if e ≤ idx then idx + 1 else e)).1 :=
            List.mem_of_mem_head? hy
          have h1 := execLoop_mem_ge re cfg n _ y hmem
          show idx < y.index
          split at h1 <;> omega

/-- Every match of the `exec` loop is a `matchAt` match at its index, and
`match[0]` is the corresponding slice. -/
theorem execLoop_mem_matchAt (re : JsRegex) (cfg : RCfg) :
    ∀ fuel start m, m ∈ (execLoop re cfg fuel start).1 →
      ∃ e caps, matchAt re cfg m.index = some (e, caps) ∧ m.str = sliceStr cfg m.index e := by
  intro fuel
  induction fuel with
  | zero => intro start m h; exact absurd h (by simp [execLoop])
  | succ n ih =>
      intro start m h
      simp only [execLoop] at h
      split at h
      · exact absurd h (by simp)
      · split at h
        · exact absurd h (by simp)
        · rename_i idx e caps heq
          simp only [List.mem_cons] at h
          rcases h with h | h
          · subst h
            exact ⟨e, caps, findFrom_matchAt re cfg _ start idx e caps heq, rfl⟩
          · exact ih _ m h

/-- A completed scan from the fresh state leaves the fresh state again, and
its issues decompose, in catalog order, into one segment per defined rule —
the hole contributes nothing and every defined rule is processed. -/
theorem runRulesGo_fresh (allRules : List (Option Rule)) (doc : String) :
    ∀ slots issues σ2,
      runRulesGo allRules doc slots (slots.map (fun _ => 0)) = .ok (issues, σ2) →
      σ2 = slots.map (fun _ => 0) ∧
      ∃ segs : List (List JsIssue),
        issues = segs.flatten ∧
        List.Forall₂ (fun (r : Rule) seg =>
            processMatches allRules r doc (execAll r.regex doc) = .ok seg)
          slots.reduceOption segs := by
  intro slots
  induction slots with
  | nil =>
      intro issues σ2 h
      simp only [runRulesGo, List.map_nil] at h
      cases h
      exact ⟨rfl, [], rfl, List.Forall₂.nil⟩
  | cons slot rest ih =>
      intro issues σ2 h
      cases slot with
      | none =>
          simp only [runRulesGo, List.map_cons, List.tail_cons, List.headD_cons] at h
          split at h
          · exact absurd h (by simp)
          · rename_i r2 hrec
            cases h
            obtain ⟨hσ, segs, hjoin, hall⟩ := ih r2.1 r2.2 hrec
            refine ⟨by simp [hσ], segs, hjoin, ?_⟩
            simpa [List.reduceOption] using hall
      | some r =>
          simp only [runRulesGo, List.map_cons, List.tail_cons, List.headD_cons] at h
          split at h
          · exact absurd h (by simp)
          · rename_i is1 hpm
            split at h
            · exact absurd h (by simp)
            · rename_i r2 hrec
              cases h
              obtain ⟨hσ, segs, hjoin, hall⟩ := ih r2.1 r2.2 hrec
              refine ⟨?_, is1 :: segs, by simp [hjoin], ?_⟩
              · simp [hσ, execLoop_snd, execAllFrom]
              · simp only [List.reduceOption_cons_of_some]
                exact List.Forall₂.cons hpm hall

/-- The rule loop splits over a catalog decomposition: the issues and the
final states concatenate, and an error in the first part short-circuits. -/
theorem runRulesGo_append (allRules : List (Option Rule)) (doc : String) :
    ∀ l1 l2 σ,
      runRulesGo allRules doc (l1 ++ l2) σ =
        match runRulesGo allRules doc l1 σ with
        | .error e => .error e
        | .ok r1 =>
            match runRulesGo allRules doc l2 (σ.drop l1.length) with
            | .error e => .error e
            | .ok r2 => .ok (r1.1 ++ r2.1, r1.2 ++ r2.2) := by
  intro l1
  induction l1 with
  | nil =>
      intro l2 σ
      simp only [List.nil_append, runRulesGo, List.length_nil, List.drop_zero]
      cases runRulesGo allRules doc l2 σ <;> rfl
  | cons slot rest ih =>
      intro l2 σ
      cases slot with
      | none =>
          simp only [List.cons_append, runRulesGo, List.append_eq]
          rw [ih l2 σ.tail]
          have hdrop : σ.tail.drop rest.length = σ.drop (rest.length + 1) := by
            rw [← List.drop_one, List.drop_drop]
            ring_nf
          rw [hdrop]
          simp only [List.length_cons]
          cases runRulesGo allRules doc rest σ.tail with
          | error e => rfl
          | ok r1 =>
              cases runRulesGo allRules doc l2 (σ.drop (rest.length + 1)) with
              | error e => rfl
              | ok r2 => rfl
      | some r =>
          simp only [List.cons_append, runRulesGo, List.append_eq]
          rw [ih l2 σ.tail]
          have hdrop : σ.tail.drop rest.length = σ.drop (rest.length + 1) := by
            rw [← List.drop_one, List.drop_drop]
            ring_nf
          rw [hdrop]
          simp only [List.length_cons]
          cases processMatches allRules r doc (execAllFrom r.regex doc (σ.headD 0)).1 with
          | error e => rfl
          | ok is1 =>
              cases runRulesGo allRules doc rest σ.tail with
              | error e => rfl
              | ok r1 =>
                  cases runRulesGo allRules doc l2 (σ.drop (rest.length + 1)) with
                  | error e => rfl
                  | ok r2 => simp

/-- Dropping into an all-zero state still reads zero. -/
theorem freshState_drop_headD (rs : List (Option Rule)) (n : Nat) :
    ((freshState rs).drop n).headD 0 = 0 := by
  rw [freshState, ← List.map_drop]
  cases rs.drop n <;> rfl

/-- Replaying a literal segment moves forward. -/
theorem segMatches_ge (cfg : RCfg) :
    ∀ cs pos q, segMatches cfg pos cs = some q → pos ≤ q := by
  intro cs
  induction cs with
  | nil =>
      intro pos q h
      simp only [segMatches] at h
      cases h
      exact le_refl _
  | cons c rest ih =>
      intro pos q h
      simp only [segMatches] at h
      split at h
      · exact le_trans (Nat.le_succ pos) (ih (pos + 1) q h)
      · exact absurd h (by simp)

/-- The matcher moves forward: a successful run hands its continuation a
position at or after the start. -/
theorem matchPat_mono (cfg : RCfg) :
    ∀ fuel pat pos caps k r, matchPat cfg fuel pat pos caps k = some r →
      ∃ p2 c2, pos ≤ p2 ∧ k p2 c2 = some r := by
  intro fuel
  induction fuel with
  | zero => intro pat pos caps k r h; exact absurd h (by simp [matchPat])
  | succ n ih =>
      intro pat pos caps k r h
      cases pat with
      | eps => exact ⟨pos, caps, le_refl _, h⟩
      | ch m =>
          simp only [matchPat] at h
          split at h
          · exact ⟨pos + 1, caps, Nat.le_succ _, h⟩
          · exact absurd h (by simp)
      | seq p q =>
          simp only [matchPat] at h
          obtain ⟨p1, c1, hp1, h1⟩ := ih _ _ _ _ _ h
          obtain ⟨p2, c2, hp2, h2⟩ := ih _ _ _ _ _ h1
          exact ⟨p2, c2, le_trans hp1 hp2, h2⟩
      | alt p q =>
          simp only [matchPat] at h
          split at h
          · rename_i r0 heq
            cases h
            exact ih _ _ _ _ _ heq
          · exact ih _ _ _ _ _ h
      | rep p lo hi lz =>
          cases lo with
          | succ m =>
              simp only [matchPat] at h
              obtain ⟨p1, c1, hp1, h1⟩ := ih _ _ _ _ _ h
              obtain ⟨p2, c2, hp2, h2⟩ := ih _ _ _ _ _ h1
              exact ⟨p2, c2, le_trans hp1 hp2, h2⟩
          | zero =>
              cases hi with
              | some hv =>
                  cases hv with
                  | zero =>
                      simp only [matchPat] at h
                      exact ⟨pos, caps, le_refl _, h⟩
                  | succ hv2 =>
                      simp only [matchPat] at h
                      split at h
                      · split at h
                        · rename_i r0 heq
                          cases h
                          exact ⟨pos, caps, le_refl _, heq⟩
                        · obtain ⟨p1, c1, hp1, h1⟩ := ih _ _ _ _ _ h
                          split at h1
                          · obtain ⟨p2, c2, hp2, h2⟩ := ih _ _ _ _ _ h1
                            exact ⟨p2, c2, le_trans hp1 hp2, h2⟩
                          · exact absurd h1 (by simp)
                      · split at h
                        · rename_i r0 heq
                          cases h
                          obtain ⟨p1, c1, hp1, h1⟩ := ih _ _ _ _ _ heq
                          split at h1
                          · obtain ⟨p2, c2, hp2, h2⟩ := ih _ _ _ _ _ h1
                            exact ⟨p2, c2, le_trans hp1 hp2, h2⟩
                          · exact absurd h1 (by simp)
                        · exact ⟨pos, caps, le_refl _, h⟩
              | none =>
                  simp only [matchPat] at h
                  split at h
                  · split at h
                    · rename_i r0 heq
                      cases h
                      exact ⟨pos, caps, le_refl _, heq⟩
                    · obtain ⟨p1, c1, hp1, h1⟩ := ih _ _ _ _ _ h
                      split at h1
                      · obtain ⟨p2, c2, hp2, h2⟩ := ih _ _ _ _ _ h1
                        exact ⟨p2, c2, le_trans hp1 hp2, h2⟩
                      · exact absurd h1 (by simp)
                  · split at h
                    · rename_i r0 heq
                      cases h
                      obtain ⟨p1, c1, hp1, h1⟩ := ih _ _ _ _ _ heq
                      split at h1
                      · obtain ⟨p2, c2, hp2, h2⟩ := ih _ _ _ _ _ h1
                        exact ⟨p2, c2, le_trans hp1 hp2, h2⟩
                      · exact absurd h1 (by simp)
                    · exact ⟨pos, caps, le_refl _, h⟩
      | grp i p =>
          simp only [matchPat] at h
          obtain ⟨p1, c1, hp1, h1⟩ := ih _ _ _ _ _ h
          exact ⟨p1, capSet c1 i pos p1, hp1, h1⟩
      | nla p =>
          simp only [matchPat] at h
          split at h
          · exact absurd h (by simp)
          · exact ⟨pos, caps, le_refl _, h⟩
      | bref i =>
          simp only [matchPat] at h
          split at h
          · exact ⟨pos, caps, le_refl _, h⟩
          · split at h
            · rename_i a b hcap pos2 hseg
              exact ⟨pos2, caps, segMatches_ge cfg _ pos pos2 hseg, h⟩
            · exact absurd h (by simp)
      | wordB =>
          simp only [matchPat] at h
          split at h
          · exact ⟨pos, caps, le_refl _, h⟩
          · exact absurd h (by simp)
      | bos =>
          simp only [matchPat] at h
          split at h
          · exact ⟨pos, caps, le_refl _, h⟩
          · exact absurd h (by simp)
      | eos =>
          simp only [matchPat] at h
          split at h
          · exact ⟨pos, caps, le_refl _, h⟩
          · exact absurd h (by simp)

/-- A literal head folded over a pattern must match the subject characters
at the position, and the rest of the match continues after it. -/
theorem matchPat_lit (cfg : RCfg) :
    ∀ cs q fuel pos caps k r,
      matchPat cfg fuel ((cs.map pchr).foldr .seq q) pos caps k = some r →
      segMatches cfg pos cs = some (pos + cs.length) ∧
      ∃ p2 c2, pos + cs.length ≤ p2 ∧ k p2 c2 = some r := by
  intro cs
  induction cs with
  | nil =>
      intro q fuel pos caps k r h
      refine ⟨by simp [segMatches], ?_⟩
      obtain ⟨p2, c2, hp2, h2⟩ := matchPat_mono cfg fuel q pos caps k r (by simpa using h)
      exact ⟨p2, c2, by simpa using hp2, h2⟩
  | cons c rest ih =>
      intro q fuel pos caps k r h
      simp only [List.map_cons, List.foldr_cons] at h
      cases fuel with
      | zero => exact absurd h (by simp [matchPat])
      | succ n =>
          simp only [matchPat] at h
          cases n with
          | zero => exact absurd h (by simp [matchPat])
          | succ n2 =>
              simp only [pchr, matchPat] at h
              split at h
              · rename_i hguard
                obtain ⟨hseg, p2, c2, hp2, h2⟩ := ih q (n2 + 1) (pos + 1) caps k r h
                have hg2 : (Nat.blt pos cfg.len && ciEq cfg.ci (charAt cfg pos) c) = true := by
                  simpa [charMHit, ccItemHit] using hguard
                refine ⟨?_, p2, c2, by simp only [List.length_cons]; omega, h2⟩
                simp only [segMatches, hg2, if_true, hseg, List.length_cons]
                exact congrArg some (by omega)
              · exact absurd h (by simp)

/-- A replayed segment is a prefix of the subject from its position, for a
case-sensitive configuration over its own characters. -/
theorem segMatches_isPrefix (cfg : RCfg) (hci : cfg.ci = false)
    (hlen : cfg.len = cfg.chars.length) :
    ∀ cs pos q, segMatches cfg pos cs = some q → cs <+: cfg.chars.drop pos := by
  intro cs
  induction cs with
  | nil => intro pos q _; exact List.nil_prefix
  | cons c rest ih =>
      intro pos q h
      simp only [segMatches] at h
      split at h
      · rename_i hg
        have hg' := hg
        simp only [Bool.and_eq_true] at hg'
        have hblt : pos < cfg.chars.length := by
          have h1 := hg'.1
          rw [← hlen]
          simpa [Nat.blt] using h1
        have hc : charAt cfg pos = c := by
          have h2 := hg'.2
          rw [hci] at h2
          simpa [ciEq] using h2
        have h1 := ih (pos + 1) q h
        rw [List.drop_eq_getElem_cons hblt]
        refine List.cons_prefix_cons.mpr ⟨?_, h1⟩
        rw [← hc]
        simp [charAt, List.getD_eq_getElem?_getD, List.getElem?_eq_getElem hblt]
      · exact absurd h (by simp)

/-- A prefix survives a long enough `take`. -/
theorem isPrefix_take_of_isPrefix {α : Type} {l t : List α} (h : l <+: t) (n : Nat)
    (hn : l.length ≤ n) : l <+: t.take n := by
  obtain ⟨u, rfl⟩ := h
  rw [List.take_append_eq_append_take, List.take_of_length_le hn]
  exact ⟨_, rfl⟩

/-- Every match of the legacy contrast matcher starts with the literal
`color:`. -/
theorem reColorDecl_match_head (doc : String) (m : RMatch)
    (hm : m ∈ execAll reColorDecl doc) : jsStartsWith m.str "color:" = true := by
  obtain ⟨e, caps, hma, hstr⟩ :=
    execLoop_mem_matchAt reColorDecl (regexCfg reColorDecl doc) _ 0 m hm
  rw [matchAt] at hma
  have hl := matchPat_lit (regexCfg reColorDecl doc) "color:".data
    (pseq [pstar pws, pchr '#', .rep phex 6 (some 6) false])
    (8 * (regexCfg reColorDecl doc).len + 200) m.index []
    (fun e2 caps2 => some (e2, caps2)) (e, caps) hma
  obtain ⟨hseg, p2, c2, hp2, h2⟩ := hl
  have hpe : p2 = e := by
    have := h2
    simp only [Option.some.injEq, Prod.mk.injEq] at this
    exact this.1
  have hpre := segMatches_isPrefix (regexCfg reColorDecl doc) rfl rfl "color:".data
    m.index _ hseg
  have hdata : m.str.data = ((regexCfg reColorDecl doc).chars.drop m.index).take (e - m.index) := by
    rw [hstr]; rfl
  have hlen6 : ("color:".data).length = 6 := by rfl
  have hp2' : m.index + 6 ≤ e := by rw [hlen6] at hp2; omega
  have htake := isPrefix_take_of_isPrefix hpre (e - m.index) (by rw [hlen6]; omega)
  rw [jsStartsWith, List.isPrefixOf_iff_prefix, hdata]
  exact htake

/-- No match of the legacy contrast matcher passes the anchored hex test of
`isValidContrast`, which therefore returns true on every one. -/
theorem reColorDecl_match_skipped (doc : String) (m : RMatch)
    (hm : m ∈ execAll reColorDecl doc) :
    isHexColor6 m.str = false ∧ isValidContrast m.str = true := by
  have h := reColorDecl_match_head doc m hm
  rw [jsStartsWith, List.isPrefixOf_iff_prefix] at h
  obtain ⟨u, hu⟩ := h
  have hfalse : isHexColor6 m.str = false := by
    simp [isHexColor6, ← hu]
  refine ⟨hfalse, ?_⟩
  rw [isValidContrast, if_neg]
  simp [hfalse]

/-- The legacy low-contrast check never produces an issue. -/
theorem legacyContrastIssues_nil (doc : String) : legacyContrastIssues doc = [] := by
  rw [legacyContrastIssues, List.filterMap_eq_nil_iff]
  intro m hm
  rw [(reColorDecl_match_skipped doc m hm).2]
  rfl

/-- Index-aware mapping keeps the length. -/
theorem mapIdxFrom_length (f : Nat → Char → Char) :
    ∀ j l, (mapIdxFrom f j l).length = l.length := by
  intro j l
  induction l generalizing j with
  | nil => rfl
  | cons c t ih => simp [mapIdxFrom, ih]

/-- Index-aware mapping rewrites each position by its own index. -/
theorem mapIdxFrom_getD (f : Nat → Char → Char) (d : Char) :
    ∀ l j i, i < l.length → (mapIdxFrom f j l).getD i d = f (j + i) (l.getD i d) := by
  intro l
  induction l with
  | nil => intro j i h; exact absurd h (by simp)
  | cons c t ih =>
      intro j i h
      cases i with
      | zero => simp [mapIdxFrom]
      | succ i2 =>
          simp only [mapIdxFrom, List.getD_cons_succ]
          rw [ih (j + 1) i2 (by simpa using h)]
          congr 1
          omega

/-- One hexadecimal digit is worth at most fifteen. -/
theorem hexDigitVal_le (c : Char) (v : Nat) (h : hexDigitVal c = some v) : v ≤ 15 := by
  rw [hexDigitVal] at h
  split at h
  · rename_i hd
    simp only [Char.isDigit, Bool.and_eq_true, decide_eq_true_eq] at hd
    have h2 : c.toNat ≤ 57 := hd.2
    cases h
    have h0 : '0'.toNat = 48 := rfl
    omega
  · split at h
    · rename_i hd
      simp only [Bool.and_eq_true, decide_eq_true_eq, Char.le_def] at hd
      have h2 : c.toNat ≤ 70 := hd.2
      cases h
      have h0 : 'A'.toNat = 65 := rfl
      omega
    · split at h
      · rename_i hd
        simp only [Bool.and_eq_true, decide_eq_true_eq, Char.le_def] at hd
        have h2 : c.toNat ≤ 102 := hd.2
        cases h
        have h0 : 'a'.toNat = 97 := rfl
        omega
      · exact absurd h (by simp)

/-- Parsing at most two characters as hexadecimal yields at least `-15`: a
minus sign consumes one character, so at most one digit can follow it. -/
theorem parseIntHex_lb (s : String) (k : Int) (hlen : s.data.length ≤ 2)
    (h : parseIntHex s = some k) : -15 ≤ k := by
  rw [parseIntHex] at h
  by_cases hm : (s.data.dropWhile isJsWs).headD ' ' = '-'
  · rw [hm] at h
    have hlen0 : (s.data.dropWhile isJsWs).length ≤ 2 :=
      le_trans (List.dropWhile_suffix isJsWs).length_le hlen
    have hlen1 : (s.data.dropWhile isJsWs).tail.length ≤ 1 := by
      rw [List.length_tail]; omega
    rcases hT : (s.data.dropWhile isJsWs).tail with _ | ⟨c, _ | ⟨c2, t⟩⟩
    · rw [hT] at h
      simp at h
    · rw [hT] at h
      rw [if_pos (show ((decide ('-' = '-') || decide ('-' = '+')) = true) from by decide)] at h
      split at h <;> (try split at h) <;> (try split at h) <;> (try split at h) <;>
        first
          | exact Option.noConfusion h
          | (injection h with h; simp only [Int.ofNat_eq_coe] at h; omega)
          | (injection h with h
             cases hv : hexDigitVal c with
             | none => simp [hv] at h; omega
             | some v =>
               simp [hv] at h
               have := hexDigitVal_le c v hv
               omega)
          | (rename_i heq; exact absurd heq (by simp))
          | simp_all
    · rw [hT] at hlen1
      simp at hlen1
  · rw [if_neg hm] at h
    split at h <;> (try split at h) <;> (try split at h) <;> (try split at h) <;>
      first
        | exact Option.noConfusion h
        | (injection h with h; simp only [Int.ofNat_eq_coe] at h; omega)
        | (rename_i heq; exact absurd heq (by simp))
        | simp_all

/-- Every channel parsed by `hexToRgb` is at least `-15`: each channel comes
from at most two characters, or is the zero default. -/
theorem hexToRgb_lb (hex : String) (r g b : Option Int)
    (h : hexToRgb hex = (r, g, b)) :
    (∀ v, r = some v → -15 ≤ v) ∧ (∀ v, g = some v → -15 ≤ v) ∧
      (∀ v, b = some v → -15 ≤ v) := by
  rw [hexToRgb] at h
  split at h
  · simp only [Prod.mk.injEq] at h
    obtain ⟨h1, h2, h3⟩ := h
    subst h1; subst h2; subst h3
    refine ⟨?_, ?_, ?_⟩ <;> intro v hv <;>
      exact parseIntHex_lb _ v (by simp) hv
  · simp only [Prod.mk.injEq] at h
    obtain ⟨h1, h2, h3⟩ := h
    subst h1; subst h2; subst h3
    refine ⟨?_, ?_, ?_⟩ <;> intro v hv <;> (injection hv with hv; omega)

/-- The linear channel value is at least `-1/100` whenever the integer
channel is at least `-15`: the linear branch scales down by `255 · 12.92`,
and the power branch is nonnegative. -/
theorem linearChannel_lb (v : Int) (hv : -15 ≤ v) :
    -(1:ℝ)/100 ≤ linearChannel v := by
  rw [linearChannel]
  have hv' : (-15:ℝ) ≤ (v:ℝ) := by exact_mod_cast hv
  split
  · rename_i hc
    rw [div_div, div_le_div_iff₀ (by norm_num) (by norm_num)]
    linarith
  · rename_i hc
    push_neg at hc
    have hb : (0:ℝ) ≤ ((v:ℝ)/255 + 0.055) / 1.055 := by positivity
    have hp : (0:ℝ) ≤ Real.rpow (((v:ℝ)/255 + 0.055) / 1.055) 2.4 :=
      Real.rpow_nonneg hb 2.4
    linarith

/-- The relative luminance is at least `-1/100` when each channel is at
least `-15`: the three weights sum to one. -/
theorem relativeLuminance_lb (r g b : Int)
    (hr : -15 ≤ r) (hg : -15 ≤ g) (hb : -15 ≤ b) :
    -(1:ℝ)/100 ≤ relativeLuminance r g b := by
  have h1 := linearChannel_lb r hr
  have h2 := linearChannel_lb g hg
  have h3 := linearChannel_lb b hb
  rw [relativeLuminance]
  linarith

/-- On three parsed channels, `luminance` is the relative luminance. -/
theorem luminance_some (r g b : Int) :
    luminance (some r, some g, some b) = some (relativeLuminance r g b) := rfl

/-- On two fully parsed colors the contrast ratio is the ordered-luminance
quotient. -/
theorem contrastRatio_eq (c1 c2 : String) (r1 g1 b1 r2 g2 b2 : Int)
    (h1 : hexToRgb c1 = (some r1, some g1, some b1))
    (h2 : hexToRgb c2 = (some r2, some g2, some b2)) :
    contrastRatio c1 c2 =
      some ((max (relativeLuminance r1 g1 b1) (relativeLuminance r2 g2 b2) + 0.05) /
            (min (relativeLuminance r1 g1 b1) (relativeLuminance r2 g2 b2) + 0.05)) := by
  rw [contrastRatio, h1, h2, luminance_some, luminance_some]
  show some
      (((if relativeLuminance r1 g1 b1 > relativeLuminance r2 g2 b2 then
            (relativeLuminance r1 g1 b1, relativeLuminance r2 g2 b2)
          else (relativeLuminance r2 g2 b2, relativeLuminance r1 g1 b1)).1 + 0.05) /
        ((if relativeLuminance r1 g1 b1 > relativeLuminance r2 g2 b2 then
            (relativeLuminance r1 g1 b1, relativeLuminance r2 g2 b2)
          else (relativeLuminance r2 g2 b2, relativeLuminance r1 g1 b1)).2 + 0.05)) = _
  by_cases hab : relativeLuminance r1 g1 b1 > relativeLuminance r2 g2 b2
  · rw [if_pos hab]
    rw [max_eq_left (le_of_lt hab), min_eq_right (le_of_lt hab)]
  · rw [if_neg hab]
    push_neg at hab
    rw [max_eq_right hab, min_eq_left hab]

/-- C5: the contrast-ratio formula claim, corrected. The claim promises the
ordered-luminance quotient, at least one, for every pair of color strings;
that fails for unparsable colors (`NaN`, here `none`). When every channel
pair of both colors parses, `contrastRatio` is the quotient of the larger by
the smaller shifted relative luminance, and that quotient is at least one. -/
theorem C5_contrastRatio_parsed (c1 c2 : String) (r1 g1 b1 r2 g2 b2 : Int)
    (h1 : hexToRgb c1 = (some r1, some g1, some b1))
    (h2 : hexToRgb c2 = (some r2, some g2, some b2)) :
    contrastRatio c1 c2 =
      some ((max (relativeLuminance r1 g1 b1) (relativeLuminance r2 g2 b2) + 0.05) /
            (min (relativeLuminance r1 g1 b1) (relativeLuminance r2 g2 b2) + 0.05)) ∧
    ∀ q : ℝ, contrastRatio c1 c2 = some q → 1 ≤ q := by
  have heq := contrastRatio_eq c1 c2 r1 g1 b1 r2 g2 b2 h1 h2
  refine ⟨heq, ?_⟩
  intro q hq
  rw [heq] at hq
  injection hq with hq
  have hb1 := hexToRgb_lb c1 _ _ _ h1
  have hb2 := hexToRgb_lb c2 _ _ _ h2
  have L1 := relativeLuminance_lb r1 g1 b1
    (hb1.1 r1 rfl) (hb1.2.1 g1 rfl) (hb1.2.2 b1 rfl)
  have L2 := relativeLuminance_lb r2 g2 b2
    (hb2.1 r2 rfl) (hb2.2.1 g2 rfl) (hb2.2.2 b2 rfl)
  have hmin : -(1:ℝ)/100 ≤
      min (relativeLuminance r1 g1 b1) (relativeLuminance r2 g2 b2) :=
    le_min L1 L2
  have hden : (0:ℝ) <
      min (relativeLuminance r1 g1 b1) (relativeLuminance r2 g2 b2) + 0.05 := by
    linarith
  rw [← hq, le_div_iff₀ hden]
  have hmm : min (relativeLuminance r1 g1 b1) (relativeLuminance r2 g2 b2) ≤
      max (relativeLuminance r1 g1 b1) (relativeLuminance r2 g2 b2) := min_le_max
  linarith

/-- C5 witness: black against white, both fully parsed. -/
theorem C5_contrastRatio_parsed_witness :
    hexToRgb "#000000" = (some 0, some 0, some 0) ∧
    hexToRgb "#ffffff" = (some 255, some 255, some 255) ∧
    contrastRatio "#000000" "#ffffff" =
      some ((max (relativeLuminance 0 0 0) (relativeLuminance 255 255 255) + 0.05) /
            (min (relativeLuminance 0 0 0) (relativeLuminance 255 255 255) + 0.05)) :=
  ⟨rfl, rfl, (C5_contrastRatio_parsed "#000000" "#ffffff" 0 0 0 255 255 255 rfl rfl).1⟩

/-- C5 counterexample: on an unparsable color the contrast ratio is `NaN`
(`none` here), not a real quotient at least one. -/
theorem C5_contrastRatio_cex :
    contrastRatio "#gggggg" "#000000" = none ∧
      ¬∃ q : ℝ, contrastRatio "#gggggg" "#000000" = some q ∧ 1 ≤ q := by
  have h : contrastRatio "#gggggg" "#000000" = none := rfl
  exact ⟨h, fun hq => by
    obtain ⟨q, hq, _⟩ := hq
    rw [h] at hq
    cases hq⟩

set_option maxRecDepth 100000
set_option maxHeartbeats 16000000

/-- C1: the failure-isolation claim, corrected.  The rule loop has no
try/catch: when the predicate of one rule throws after a prefix of the
catalog has already scanned cleanly, the whole scan rejects with that
exception — the remaining rules are not evaluated and the earlier rules'
findings are discarded, instead of the promised isolate-and-continue. -/
theorem C1_predicate_throw_aborts (l1 l2 : List (Option Rule)) (r : Rule)
    (doc : String) (e : JsError) (issues1 : List JsIssue) (σ1 : List Nat)
    (h1 : runRulesGo (l1 ++ some r :: l2) doc l1
        (freshState (l1 ++ some r :: l2)) = .ok (issues1, σ1))
    (h2 : processMatches (l1 ++ some r :: l2) r doc (execAll r.regex doc) =
        .error e) :
    checkSemanticIssues (l1 ++ some r :: l2) doc = .error e := by
  rw [checkSemanticIssues]
  simp only [checkSemanticIssuesVal]
  rw [runRulesGo_append, h1]
  simp only [runRulesGo]
  rw [show ((freshState (l1 ++ some r :: l2)).drop l1.length).headD 0 = 0 from
    freshState_drop_headD _ _]
  rw [show (execAllFrom r.regex doc 0).1 = execAll r.regex doc from rfl, h2]

/-- C1 witness: a two-rule catalog whose first rule throws on the image
document. -/
theorem C1_predicate_throw_aborts_witness :
    runRulesGo [some ruleThrows, some R1] imgDoc []
        (freshState [some ruleThrows, some R1]) = .ok ([], []) ∧
    processMatches [some ruleThrows, some R1] ruleThrows imgDoc
        (execAll ruleThrows.regex imgDoc) = .error (.typeError "boom") ∧
    checkSemanticIssues [some ruleThrows, some R1] imgDoc =
      .error (.typeError "boom") :=
  ⟨rfl, rfl, C1_predicate_throw_aborts [] [some R1] ruleThrows imgDoc
      (.typeError "boom") [] [] rfl rfl⟩

/-- C1 counterexample: with the throwing rule in front, the scan rejects and
R1's finding is lost; without it, the same document yields R1's finding. -/
theorem C1_predicate_throw_cex :
    checkSemanticIssues [some ruleThrows, some R1] imgDoc =
      .error (.typeError "boom") ∧
    checkSemanticIssues [some R1] imgDoc = .ok [r1ImgIssue] :=
  ⟨rfl, rfl⟩

/-- C2: the comment-neutralization claim, corrected.  No preprocessor runs
before the rule loop: the commented-out image tag still produces exactly the
R1 finding, whose span (line 0, characters 5 to 22) lies fully inside the
single comment region, offsets 0 to 26, of the original text. -/
theorem C2_comment_not_neutralized :
    checkSemanticIssues rulesCatalog imgCommentDoc = .ok [r1CommentIssue] ∧
    checkSemanticIssues rulesCatalog imgCommentDoc ≠ .ok [] ∧
    neutralRegions imgCommentDoc = [(0, 26)] ∧
    (∀ i : Nat, 5 ≤ i → i < 22 →
      inNeutralRegion (neutralRegions imgCommentDoc) i = true) := by
  refine ⟨rfl, ?_, rfl, ?_⟩
  · intro h
    rw [show checkSemanticIssues rulesCatalog imgCommentDoc =
        .ok [r1CommentIssue] from rfl] at h
    injection h with h
    simp at h
  · intro i h1 h2
    rw [show neutralRegions imgCommentDoc = [(0, 26)] from rfl]
    simp [inNeutralRegion, Nat.blt]
    omega

/-- C2 counterexample: the comment scenario does not scan to zero findings,
and the produced span sits inside the comment region. -/
theorem C2_comment_scenario_cex :
    checkSemanticIssues rulesCatalog imgCommentDoc ≠ .ok [] ∧
    inNeutralRegion (neutralRegions imgCommentDoc) 5 = true ∧
    inNeutralRegion (neutralRegions imgCommentDoc) 21 = true := by
  refine ⟨?_, rfl, rfl⟩
  intro h
  rw [show checkSemanticIssues rulesCatalog imgCommentDoc =
      .ok [r1CommentIssue] from rfl] at h
  injection h with h
  simp at h

/-- C3: finding order and determinism, confirmed.  A completed scan leaves
every `lastIndex` at zero again, so a second scan from the state the first
one left behind returns the identical list; the issues decompose in catalog
order into one segment per defined rule, and within one rule the match
indices strictly increase (occurrence order). -/
theorem C3_deterministic_order (rs : List (Option Rule)) (doc : String)
    (issues : List JsIssue) (rep : Bool) (σ2 : List Nat)
    (h : checkSemanticIssuesVal (.array rs) (freshState rs) doc =
        .ok (issues, rep, σ2)) :
    checkSemanticIssuesVal (.array rs) σ2 doc = .ok (issues, rep, σ2) ∧
    (∃ segs : List (List JsIssue), issues = segs.flatten ∧
      List.Forall₂ (fun (r : Rule) seg =>
          processMatches rs r doc (execAll r.regex doc) = .ok seg)
        rs.reduceOption segs) ∧
    (∀ r : Rule, some r ∈ rs →
      List.Chain' (fun a b => a.index < b.index) (execAll r.regex doc)) := by
  simp only [checkSemanticIssuesVal] at h ⊢
  split at h
  · exact absurd h (by simp)
  · rename_i issues0 fins hrun
    injection h with h
    simp only [Prod.mk.injEq] at h
    obtain ⟨hi, hr, hs⟩ := h
    subst hi; subst hr; subst hs
    obtain ⟨hσ, segs, hflat, hall⟩ :=
      runRulesGo_fresh rs doc rs issues0 fins hrun
    have hrun2 : runRulesGo rs doc rs (rs.map (fun _ => 0)) =
        .ok (issues0, fins) := hrun
    refine ⟨?_, ⟨segs, hflat, hall⟩, ?_⟩
    · rw [hσ, hrun2, hσ]
    · intro r hr
      exact execLoop_chain r.regex (regexCfg r.regex doc)
        ((regexCfg r.regex doc).len + 2) 0

/-- C3 witness: the one-rule catalog on the image document; the final state
is all-zero and replaying from it returns the same single finding. -/
theorem C3_deterministic_order_witness :
    checkSemanticIssuesVal (.array [some R1]) [0] imgDoc =
      .ok ([r1ImgIssue], false, [0]) :=
  (C3_deterministic_order [some R1] imgDoc [r1ImgIssue] false [0] rfl).1

/-- C4: the image scenario, confirmed.  The bare image tag yields exactly one
finding; it is owned by R1 (level A, first catalog slot), its rendered
message carries the identifier, and its span runs from offset 0 to offset 17,
the whole tag, as line/character pairs (0,0) to (0,17). -/
theorem C4_img_scenario :
    checkSemanticIssues rulesCatalog imgDoc = .ok [r1ImgIssue] ∧
    r1ImgIssue.message = "Image without alt attribute (R1)" ∧
    R1.id = "R1" ∧ R1.level = "A" ∧
    rulesCatalog.getD 0 none = some R1 ∧
    imgDoc.length = 17 ∧
    (execAll R1.regex imgDoc).map (fun m => (m.index, m.str)) = [(0, imgDoc)] ∧
    r1ImgIssue.startLine = 0 ∧ r1ImgIssue.startChar = 0 ∧
    r1ImgIssue.endLine = 0 ∧ r1ImgIssue.endChar = 17 ∧
    positionAt imgDoc 0 = (0, 0) ∧ positionAt imgDoc imgDoc.length = (0, 17) :=
  ⟨rfl, rfl, rfl, rfl, rfl, rfl, rfl, rfl, rfl, rfl, rfl, rfl, rfl⟩

/-- C6: the catalog-guard claim, corrected.  The `Array.isArray` guard runs
only after the loop: a missing catalog throws a TypeError inside the loop
header before the guard can run, and only a non-array object that still
offers `forEach` reaches the guard, which then discards the loop's issues
and returns the empty list with the failure reported. -/
theorem C6_guard_after_loop (rs : List (Option Rule)) (σ : List Nat)
    (doc : String) (issues : List JsIssue) (σ2 : List Nat)
    (h : runRulesGo rs doc rs σ = .ok (issues, σ2)) :
    checkSemanticIssuesVal (.forEachObj rs) σ doc = .ok ([], true, σ2) ∧
    checkSemanticIssuesVal .undef σ doc =
      .error (.typeError "Cannot read properties of undefined (reading 'forEach')") := by
  refine ⟨?_, rfl⟩
  simp only [checkSemanticIssuesVal, h]

/-- C6 witness: the empty pseudo-catalog object and the empty document. -/
theorem C6_guard_after_loop_witness :
    runRulesGo [] "" [] [] = .ok ([], []) ∧
    checkSemanticIssuesVal (.forEachObj []) [] "" = .ok ([], true, []) ∧
    checkSemanticIssuesVal .undef [] "" =
      .error (.typeError "Cannot read properties of undefined (reading 'forEach')") :=
  ⟨rfl, (C6_guard_after_loop [] [] "" [] [] rfl).1,
    (C6_guard_after_loop [] [] "" [] [] rfl).2⟩

/-- C6 counterexample: with the catalog missing entirely the scan throws —
it does not return an empty finding list. -/
theorem C6_missing_catalog_cex :
    checkSemanticIssuesVal .undef [] "" =
      .error (.typeError "Cannot read properties of undefined (reading 'forEach')") ∧
    ¬∃ issues rep σ2, checkSemanticIssuesVal .undef [] "" = .ok (issues, rep, σ2) := by
  refine ⟨rfl, ?_⟩
  rintro ⟨i, r, s, h⟩
  exact Except.noConfusion h

/-- C7: the preprocessor contract, confirmed against the specification's own
model (no preprocessor exists under `src/`).  `preprocess` keeps the length,
keeps every newline position unchanged, keeps characters outside the
comment/script/style regions, and turns every other in-region character into
a space — character-for-character replacement, never deletion. -/
theorem C7_preprocess_invariants (text : String) :
    (preprocess text).length = text.length ∧
    (∀ i, i < text.data.length →
      ((preprocess text).data.getD i ' ' = '\n' ↔ text.data.getD i ' ' = '\n')) ∧
    (∀ i, i < text.data.length →
      inNeutralRegion (neutralRegions text) i = false →
      (preprocess text).data.getD i ' ' = text.data.getD i ' ') ∧
    (∀ i, i < text.data.length →
      inNeutralRegion (neutralRegions text) i = true →
      text.data.getD i ' ' ≠ '\n' →
      (preprocess text).data.getD i ' ' = ' ') := by
  have hdata : (preprocess text).data =
      mapIdxFrom (fun i c => if c = '\n' then c
        else if inNeutralRegion (neutralRegions text) i then ' ' else c) 0 text.data := rfl
  refine ⟨?_, ?_, ?_, ?_⟩
  · show (preprocess text).data.length = text.data.length
    rw [hdata, mapIdxFrom_length]
  · intro i h
    rw [hdata, mapIdxFrom_getD _ _ _ _ _ h, Nat.zero_add]
    by_cases hc : text.data.getD i ' ' = '\n'
    · rw [if_pos hc]
    · rw [if_neg hc]
      by_cases hr : inNeutralRegion (neutralRegions text) i = true
      · rw [if_pos hr]
        exact iff_of_false (by decide) hc
      · rw [if_neg hr]
  · intro i h hr
    rw [hdata, mapIdxFrom_getD _ _ _ _ _ h, Nat.zero_add]
    by_cases hc : text.data.getD i ' ' = '\n'
    · rw [if_pos hc]
    · rw [if_neg hc,
        if_neg (show ¬inNeutralRegion (neutralRegions text) i = true by simp [hr])]
  · intro i h hr hc
    rw [hdata, mapIdxFrom_getD _ _ _ _ _ h, Nat.zero_add]
    rw [if_neg hc, if_pos hr]

/-- C8: the legacy scan never completes, confirmed.  `detectTextAlternatives`
either throws at its first `issues.push` into the TextDocument parameter or
runs through without pushing and returns `undefined`; spreading that
`undefined` in `issues.push(...altIssues)` then throws, so the legacy entry
point rejects on every input. -/
theorem C8_legacy_scan_always_throws (doc : String) :
    (∃ e, checkSemanticIssuesLegacy doc = .error e) ∧
    ∀ issues : List LegacyIssue, checkSemanticIssuesLegacy doc ≠ .ok issues := by
  have hval : ∃ e, checkSemanticIssuesLegacy doc = .error e := by
    cases hd : detectTextAlternativesOnDocument doc with
    | error e => exact ⟨e, by simp [checkSemanticIssuesLegacy, hd]⟩
    | ok u =>
        exact ⟨.typeError
          "altIssues is not iterable (cannot read property Symbol(Symbol.iterator))",
          by simp [checkSemanticIssuesLegacy, hd]⟩
  obtain ⟨e, he⟩ := hval
  refine ⟨⟨e, he⟩, ?_⟩
  intro issues hok
  rw [he] at hok
  exact Except.noConfusion hok

/-- C9: the legacy low-contrast check is dead, confirmed.  Every match of
the color-declaration pattern starts with the literal `color:`, so it fails
the anchored six-digit-hex test, `isValidContrast` answers true without a
ratio computation, and no contrast issue is ever produced. -/
theorem C9_low_contrast_never_fires (doc : String) :
    legacyContrastIssues doc = [] ∧
    ∀ m ∈ execAll reColorDecl doc,
      jsStartsWith m.str "color:" = true ∧
      isHexColor6 m.str = false ∧ isValidContrast m.str = true := by
  refine ⟨legacyContrastIssues_nil doc, ?_⟩
  intro m hm
  exact ⟨reColorDecl_match_head doc m hm,
         (reColorDecl_match_skipped doc m hm).1,
         (reColorDecl_match_skipped doc m hm).2⟩

/-- C10: the catalog hole, confirmed.  The catalog has 83 slots with the
hole at index 48, between R48 and R49; the rule loop skips the hole and
still evaluates every defined rule (one segment per defined rule, in
order); but on a document where a post-hole rule fires, the identifier
lookup walks the sparse array into the hole and the scan throws. -/
theorem C10_sparse_catalog_hole :
    rulesCatalog.length = 83 ∧
    rulesCatalog.getD 48 none = none ∧
    (rulesCatalog.getD 47 none).map Rule.id = some "R48" ∧
    (rulesCatalog.getD 49 none).map Rule.id = some "R49" ∧
    (∀ doc issues σ2,
      runRulesGo rulesCatalog doc rulesCatalog (freshState rulesCatalog) =
        .ok (issues, σ2) →
      ∃ segs : List (List JsIssue), issues = segs.flatten ∧
        List.Forall₂ (fun (r : Rule) seg =>
            processMatches rulesCatalog r doc (execAll r.regex doc) = .ok seg)
          rulesCatalog.reduceOption segs) ∧
    checkSemanticIssues rulesCatalog abbrDoc =
      .error (.typeError "Cannot read properties of undefined (reading 'message')") ∧
    findRuleByMessage rulesCatalog R61.message =
      .error (.typeError "Cannot read properties of undefined (reading 'message')") := by
  refine ⟨rfl, rfl, rfl, rfl, ?_, rfl, rfl⟩
  intro doc issues σ2 h
  obtain ⟨hσ, segs, hflat, hall⟩ :=
    runRulesGo_fresh rulesCatalog doc rulesCatalog issues σ2 h
  exact ⟨segs, hflat, hall⟩

